import Mathlib

/-!
Verification development for the NebulaLabs `nebula-library` perp-DEX
python services:

* `extended_trading_service.py` — one-shot process-argument transport
  around the x10 (Extended) SDK, and
* `grvt/python-service/service.py` — persistent stdin-stream transport
  around the GRVT SDK.

The services are shallowly embedded: Python values are modelled by
`PyVal`, vendor-SDK calls are modelled by lists of oracle outcomes
(`ExtRes` / `GrvtRes`) consumed in program order, and each handler is a
total Lean function translated statement-by-statement from the Python
source.  Exceptions are modelled with `Except String`; the `try/except`
blocks of the source become the points where an `Except.error` is turned
back into an `{..., error: msg}` response object.
-/

set_option maxHeartbeats 1000000

/-- A JSON-ish Python runtime value.

* `pdecimal r` models `decimal.Decimal` with `str(d) = r`
  (Decimal preserves its literal representation).
* `pobj attrs` models an SDK response object carrying `__dict__ = attrs`.
* `pother s` models any other non-JSON-serializable object with
  `str(obj) = s`. -/
inductive PyVal where
  | pnone
  | pbool (b : Bool)
  | pint (n : Int)
  | pfloat (q : ℚ)
  | pdecimal (r : String)
  | pstr (s : String)
  | plist (xs : List PyVal)
  | pdict (fs : List (String × PyVal))
  | pobj (attrs : List (String × PyVal))
  | pother (s : String)
  deriving Repr

namespace PyVal

/-- First-match lookup in a Python dict, `d[k]` / `d.get(k)` style. -/
def dictGet : List (String × PyVal) → String → Option PyVal
  | [], _ => none
  | (k, v) :: fs, key => if k = key then some v else dictGet fs key

/-- Python truthiness (`bool(v)`).  `Decimal` truthiness is approximated
by comparison of the literal with `"0"`; no claim exercises it. -/
def truthy : PyVal → Bool
  | .pnone => false
  | .pbool b => b
  | .pint n => n != 0
  | .pfloat q => q != 0
  | .pdecimal r => r != "0"
  | .pstr s => s != ""
  | .plist xs => !xs.isEmpty
  | .pdict fs => !fs.isEmpty
  | .pobj _ => true
  | .pother _ => true

/-- The Python type name of a value, as it appears in error messages. -/
def typeName : PyVal → String
  | .pnone => "NoneType"
  | .pbool _ => "bool"
  | .pint _ => "int"
  | .pfloat _ => "float"
  | .pdecimal _ => "Decimal"
  | .pstr _ => "str"
  | .plist _ => "list"
  | .pdict _ => "dict"
  | .pobj _ => "object"
  | .pother _ => "object"

/-- Digits of the fractional part of a nonnegative rational below `1`,
produced by repeated multiplication by ten (bounded fuel). -/
def fracDigits : ℚ → Nat → List Char
  | _, 0 => []
  | q, n + 1 =>
    if q = 0 then []
    else
      let q10 := q * 10
      let d := (⌊q10⌋).toNat
      Char.ofNat (48 + d) :: fracDigits (q10 - (d : ℚ)) n

/-- Rendering of a Python `float` as a decimal string (`str(f)`),
modelled up to the precision of the fuel; exact for the short decimal
fractions the services handle. -/
def decStr (q : ℚ) : String :=
  let sgn := if q < 0 then "-" else ""
  let a := |q|
  let ip := (⌊a⌋).toNat
  let ds := fracDigits (a - (ip : ℚ)) 20
  sgn ++ toString ip ++ "." ++ (if ds.isEmpty then "0" else String.mk ds)

/-- Python `str(v)` for the scalar values the services stringify.
Container reprs are elided (never exercised by a claim). -/
def pyStr : PyVal → String
  | .pnone => "None"
  | .pbool true => "True"
  | .pbool false => "False"
  | .pint n => toString n
  | .pfloat q => decStr q
  | .pdecimal r => r
  | .pstr s => s
  | .pother s => s
  | .plist _ => "[...]"
  | .pdict _ => "\x7b...\x7d"
  | .pobj _ => "<object>"

/-- `getattr(v, name, default)`. -/
def attrD (v : PyVal) (name : String) (d : PyVal) : PyVal :=
  match v with
  | .pobj attrs => (dictGet attrs name).getD d
  | _ => d

/-- `getattr(v, name)` as an `Option` (attribute lookup that may fail). -/
def attrGet (v : PyVal) (name : String) : Option PyVal :=
  match v with
  | .pobj attrs => dictGet attrs name
  | _ => none

end PyVal

mutual

/-- `json.dumps` succeeds exactly on values built from `None`, `bool`,
`int`, `float`, `str`, `list` and `dict`. -/
def jsonSerializable : PyVal → Bool
  | .pnone => true
  | .pbool _ => true
  | .pint _ => true
  | .pfloat _ => true
  | .pstr _ => true
  | .pdecimal _ => false
  | .pobj _ => false
  | .pother _ => false
  | .plist xs => jsonSerializableList xs
  | .pdict fs => jsonSerializableFields fs

/-- `jsonSerializable` over the elements of a list. -/
def jsonSerializableList : List PyVal → Bool
  | [] => true
  | v :: vs => jsonSerializable v && jsonSerializableList vs

/-- `jsonSerializable` over the values of a dict. -/
def jsonSerializableFields : List (String × PyVal) → Bool
  | [] => true
  | (_, v) :: fs => jsonSerializable v && jsonSerializableFields fs

end

mutual

/-- No `float` value occurs anywhere in `v`. -/
def floatFree : PyVal → Bool
  | .pfloat _ => false
  | .plist xs => floatFreeList xs
  | .pdict fs => floatFreeFields fs
  | .pobj fs => floatFreeFields fs
  | _ => true

/-- `floatFree` over the elements of a list. -/
def floatFreeList : List PyVal → Bool
  | [] => true
  | v :: vs => floatFree v && floatFreeList vs

/-- `floatFree` over the values of a dict or `__dict__`. -/
def floatFreeFields : List (String × PyVal) → Bool
  | [] => true
  | (_, v) :: fs => floatFree v && floatFreeFields fs

end

/-- `v` is a dict carrying an `"error"` key (top level). -/
def hasErrorKey : PyVal → Bool
  | .pdict fs => (PyVal.dictGet fs "error").isSome
  | _ => false

mutual

/-- Some dict nested anywhere inside `v` carries an `"error"` key. -/
def hasErrorKeyDeep : PyVal → Bool
  | .pdict fs => (PyVal.dictGet fs "error").isSome || hasErrorKeyDeepFields fs
  | .plist xs => hasErrorKeyDeepList xs
  | _ => false

/-- `hasErrorKeyDeep` over list elements. -/
def hasErrorKeyDeepList : List PyVal → Bool
  | [] => false
  | v :: vs => hasErrorKeyDeep v || hasErrorKeyDeepList vs

/-- `hasErrorKeyDeep` over dict values. -/
def hasErrorKeyDeepFields : List (String × PyVal) → Bool
  | [] => false
  | (_, v) :: fs => hasErrorKeyDeep v || hasErrorKeyDeepFields fs

end

/-- The `{"error": msg}` response object both services build. -/
def errD (msg : String) : PyVal := .pdict [("error", .pstr msg)]

theorem hasErrorKey_errD (msg : String) : hasErrorKey (errD msg) = true := rfl

theorem hasErrorKeyDeep_errD (msg : String) : hasErrorKeyDeep (errD msg) = true := rfl

theorem hasErrorKey_imp_deep (v : PyVal) (h : hasErrorKey v = true) :
    hasErrorKeyDeep v = true := by
  cases v <;> simp_all [hasErrorKey, hasErrorKeyDeep]

/-! ## Python numeric literal parsing (`int(...)`, `float(...)`, `Decimal(...)`) -/

/-- A run of decimal digits possibly containing single underscores
strictly between digits; the run may be empty. -/
def pyDigitRun : List Char → Bool
  | [] => true
  | ['_'] => false
  | '_' :: c :: cs => c.isDigit && pyDigitRun (c :: cs)
  | c :: cs => c.isDigit && pyDigitRun cs

/-- A nonempty digit run starting with a digit (body of an int literal). -/
def pyIntLit : List Char → Bool
  | [] => false
  | c :: rest => c.isDigit && pyDigitRun rest

/-- Python whitespace characters stripped by `int(...)` / `float(...)`. -/
def isPyWs (c : Char) : Bool :=
  c = ' ' || c = '\t' || c = '\n' || c = '\r' || c = '\x0b' || c = '\x0c'

/-- Strip leading and trailing whitespace. -/
def stripWs (cs : List Char) : List Char :=
  ((cs.dropWhile isPyWs).reverse.dropWhile isPyWs).reverse

/-- `int(s)` succeeds on the string `s` (optional sign, decimal digits
with underscore separators; base prefixes are not accepted). -/
def pyIntStrOk (s : String) : Bool :=
  match stripWs s.data with
  | '+' :: rest => pyIntLit rest
  | '-' :: rest => pyIntLit rest
  | cs => pyIntLit cs

/-- `int(v)` succeeds: strings via `pyIntStrOk`, numbers and bools always,
everything else raises `TypeError`/`ValueError`. -/
def pyIntOk : PyVal → Bool
  | .pstr s => pyIntStrOk s
  | .pint _ => true
  | .pfloat _ => true
  | .pbool _ => true
  | .pdecimal r => pyIntStrOk r
  | _ => false

/-- Numeric value of a pure digit run (`none` when a non-digit occurs). -/
def digitsVal (cs : List Char) : Option Nat :=
  if cs.all Char.isDigit then
    some (cs.foldl (fun a c => a * 10 + (c.toNat - 48)) 0)
  else none

/-- Split a char list at the first `.`; returns the parts before/after
and whether a dot was present at all (a second dot fails the parse). -/
def splitDot : List Char → Option (List Char × List Char)
  | [] => some ([], [])
  | '.' :: rest => if rest.contains '.' then none else some ([], rest)
  | c :: rest =>
    match splitDot rest with
    | some (a, b) => some (c :: a, b)
    | none => none

/-- Value of an unsigned decimal literal `digits[.digits]`; at least one
digit must be present overall (exponents / inf / nan are elided — the
services never receive them from their own serializers). -/
def decLitVal (cs : List Char) : Option ℚ :=
  match splitDot cs with
  | none => none
  | some (a, b) =>
    if a.isEmpty && b.isEmpty then none
    else
      match digitsVal a, digitsVal b with
      | some ia, some fb =>
        some ((ia : ℚ) + (fb : ℚ) / ((10 : ℚ) ^ b.length))
      | _, _ => none

/-- `float(s)` on a string: optional sign around a decimal literal. -/
def pyFloatStrVal (s : String) : Option ℚ :=
  match stripWs s.data with
  | '+' :: rest => decLitVal rest
  | '-' :: rest => (decLitVal rest).map Neg.neg
  | cs => decLitVal cs

/-- `float(v)`: numbers convert, strings parse, anything else raises. -/
def pyFloatParse : PyVal → Except String ℚ
  | .pint n => .ok (n : ℚ)
  | .pfloat q => .ok q
  | .pbool b => .ok (if b then 1 else 0)
  | .pstr s =>
    match pyFloatStrVal s with
    | some q => .ok q
    | none => .error ("could not convert string to float: \x27" ++ s ++ "\x27")
  | .pdecimal r =>
    match pyFloatStrVal r with
    | some q => .ok q
    | none => .error ("could not convert string to float: \x27" ++ r ++ "\x27")
  | v => .error ("float() argument must be a string or a real number, not \x27"
      ++ v.typeName ++ "\x27")

/-- `Decimal(str(v))` succeeds — the services wrap amounts this way; the
resulting `Decimal` keeps the literal text, so `str(Decimal(str(v)))`
is modelled as `pyStr v` where the parse succeeds. -/
def pyDecimalOk (v : PyVal) : Bool :=
  match v with
  | .pint _ => true
  | .pfloat _ => true
  | .pdecimal r => (pyFloatStrVal r).isSome
  | .pstr s => (pyFloatStrVal s).isSome
  | _ => false

/-! ## `ExtendedTradingService._serialize_object` -/

mutual

/-- `_serialize_object` from `extended_trading_service.py`: `Decimal`
becomes its string, dicts/lists recurse, objects with `__dict__`
become dicts of their serialized attributes, JSON-native scalars pass
through, and anything `json.dumps` rejects falls back to `str(obj)`. -/
def serializeObject : PyVal → PyVal
  | .pdecimal r => .pstr r
  | .pdict fs => .pdict (serializeFields fs)
  | .plist xs => .plist (serializeList xs)
  | .pobj attrs => .pdict (serializeFields attrs)
  | .pnone => .pnone
  | .pbool b => .pbool b
  | .pint n => .pint n
  | .pfloat q => .pfloat q
  | .pstr s => .pstr s
  | .pother s => .pstr s

/-- `_serialize_object` mapped over a list. -/
def serializeList : List PyVal → List PyVal
  | [] => []
  | v :: vs => serializeObject v :: serializeList vs

/-- `_serialize_object` mapped over dict/attribute values. -/
def serializeFields : List (String × PyVal) → List (String × PyVal)
  | [] => []
  | (k, v) :: fs => (k, serializeObject v) :: serializeFields fs

end

mutual

theorem serializeObject_serializable :
    (v : PyVal) → jsonSerializable (serializeObject v) = true
  | .pdecimal _ => rfl
  | .pdict fs => serializeFields_serializable fs
  | .plist xs => serializeList_serializable xs
  | .pobj attrs => serializeFields_serializable attrs
  | .pnone => rfl
  | .pbool _ => rfl
  | .pint _ => rfl
  | .pfloat _ => rfl
  | .pstr _ => rfl
  | .pother _ => rfl

theorem serializeList_serializable :
    (xs : List PyVal) → jsonSerializable (.plist (serializeList xs)) = true
  | [] => rfl
  | v :: vs => by
    have h1 := serializeObject_serializable v
    have h2 := serializeList_serializable vs
    simp only [jsonSerializable] at h2
    simp only [serializeList, jsonSerializable, jsonSerializableList,
      Bool.and_eq_true]
    exact ⟨h1, h2⟩

theorem serializeFields_serializable :
    (fs : List (String × PyVal)) →
      jsonSerializable (.pdict (serializeFields fs)) = true
  | [] => rfl
  | (k, v) :: fs => by
    have h1 := serializeObject_serializable v
    have h2 := serializeFields_serializable fs
    simp only [jsonSerializable] at h2
    simp only [serializeFields, jsonSerializable, jsonSerializableFields,
      Bool.and_eq_true]
    exact ⟨h1, h2⟩

end

mutual

theorem serializeObject_floatFree :
    (v : PyVal) → floatFree v = true → floatFree (serializeObject v) = true
  | .pdecimal _, _ => rfl
  | .pdict fs, h => serializeFields_floatFree fs h
  | .plist xs, h => serializeList_floatFree xs h
  | .pobj attrs, h => serializeFields_floatFree attrs h
  | .pnone, _ => rfl
  | .pbool _, _ => rfl
  | .pint _, _ => rfl
  | .pfloat _, h => by simp [floatFree] at h
  | .pstr _, _ => rfl
  | .pother _, _ => rfl

theorem serializeList_floatFree :
    (xs : List PyVal) → floatFree (.plist xs) = true →
      floatFree (.plist (serializeList xs)) = true
  | [], _ => rfl
  | v :: vs, h => by
    simp only [floatFree, floatFreeList, Bool.and_eq_true] at h
    have h1 := serializeObject_floatFree v h.1
    have h2 := serializeList_floatFree vs (by simpa [floatFree, floatFreeList] using h.2)
    simp only [serializeList, floatFree, floatFreeList, Bool.and_eq_true] at *
    exact ⟨h1, h2⟩

theorem serializeFields_floatFree :
    (fs : List (String × PyVal)) → floatFreeFields fs = true →
      floatFree (.pdict (serializeFields fs)) = true
  | [], _ => rfl
  | (k, v) :: fs, h => by
    simp only [floatFreeFields, Bool.and_eq_true] at h
    have h1 := serializeObject_floatFree v h.1
    have h2 := serializeFields_floatFree fs h.2
    simp only [serializeFields, floatFree, floatFreeFields, Bool.and_eq_true] at *
    exact ⟨h1, h2⟩

end

mutual

/-- Python `==` on the values the services compare (structural;
cross-type numeric equality such as `1 == 1.0` is elided — the services
only compare strings here). -/
def pyEqB : PyVal → PyVal → Bool
  | .pnone, .pnone => true
  | .pbool a, .pbool b => a == b
  | .pint a, .pint b => a == b
  | .pfloat a, .pfloat b => a == b
  | .pdecimal a, .pdecimal b => a == b
  | .pstr a, .pstr b => a == b
  | .pother _, .pother _ => false
  | .plist as, .plist bs => pyEqListB as bs
  | .pdict as, .pdict bs => pyEqFieldsB as bs
  | _, _ => false

/-- `pyEqB` over lists. -/
def pyEqListB : List PyVal → List PyVal → Bool
  | [], [] => true
  | a :: as, b :: bs => pyEqB a b && pyEqListB as bs
  | _, _ => false

/-- `pyEqB` over dict entries. -/
def pyEqFieldsB : List (String × PyVal) → List (String × PyVal) → Bool
  | [], [] => true
  | (ka, va) :: as, (kb, vb) :: bs => ka == kb && pyEqB va vb && pyEqFieldsB as bs
  | _, _ => false

end

/-! ## Extended service (`extended_trading_service.py`)

An SDK interaction is modelled by an oracle outcome list consumed in
program order: outcome `i` is what the `i`-th awaited SDK call does.
`ExtRes.ok v` carries the unwrapped payload (the `.data` attribute when
the response has one — the handlers unwrap it uniformly). -/

/-- Outcome of one Extended-SDK call. -/
inductive ExtRes where
  | raised (msg : String)
  | ok (v : PyVal)

/-- State of `ExtendedTradingService` after `__init__`: whether the
SDK imported, and whether `trading_client`/`data_client` are non-`None`
(the constructor catches its own failures and leaves them `None`). -/
structure ExtSvc where
  sdkAvailable : Bool
  clientOk : Bool

/-- The `i`-th SDK call outcome; calls beyond the supplied oracle are
treated as raising. -/
def callExt (env : List ExtRes) (i : Nat) : ExtRes :=
  env.getD i (.raised "no response")

/-- `ExtendedTradingService.get_markets`. -/
def extGetMarkets (svc : ExtSvc) (env : List ExtRes) : PyVal × Nat :=
  if !svc.sdkAvailable then
    (errD "X10 SDK not available - install x10-python-trading-starknet", 0)
  else if !svc.clientOk then
    (errD "Data client not initialized - check API credentials", 0)
  else
    match callExt env 0 with
    | .raised m => (errD ("Failed to get markets: " ++ m), 1)
    | .ok (.plist ms) => (.plist (serializeList ms), 1)
    | .ok v =>
      (errD ("Failed to get markets: \x27" ++ v.typeName ++ "\x27 object is not iterable"), 1)

/-- `ExtendedTradingService.get_account_info`. -/
def extGetAccountInfo (svc : ExtSvc) (env : List ExtRes) : PyVal × Nat :=
  if !svc.sdkAvailable then
    (errD "X10 SDK not available - install x10-python-trading-starknet", 0)
  else if !svc.clientOk then
    (errD "Trading client not initialized - check API credentials", 0)
  else
    match callExt env 0 with
    | .raised m => (errD ("Failed to get account info: " ++ m), 1)
    | .ok v => (serializeObject v, 1)

/-- `ExtendedTradingService.get_positions`. -/
def extGetPositions (svc : ExtSvc) (env : List ExtRes) : PyVal × Nat :=
  if !svc.sdkAvailable || !svc.clientOk then
    (errD "SDK not available or trading client not initialized", 0)
  else
    match callExt env 0 with
    | .raised m => (errD ("Failed to get positions: " ++ m), 1)
    | .ok (.plist ps) => (.plist (serializeList ps), 1)
    | .ok v =>
      (errD ("Failed to get positions: \x27" ++ v.typeName ++ "\x27 object is not iterable"), 1)

/-- `ExtendedTradingService.get_orders`. -/
def extGetOrders (svc : ExtSvc) (env : List ExtRes) : PyVal × Nat :=
  if !svc.sdkAvailable || !svc.clientOk then
    (errD "SDK not available or trading client not initialized", 0)
  else
    match callExt env 0 with
    | .raised m => (errD ("Failed to get orders: " ++ m), 1)
    | .ok (.plist os) => (.plist (serializeList os), 1)
    | .ok v =>
      (errD ("Failed to get orders: \x27" ++ v.typeName ++ "\x27 object is not iterable"), 1)

/-- Scan open orders for `str(order.id) == str(order_id)` or a matching
`client_order_id` (`get_order_by_id`, first phase); accessing `.id`
on an attribute-less object raises. -/
def scanOpenOrders (orderId : PyVal) : List PyVal → Except String (Option PyVal)
  | [] => .ok none
  | o :: os =>
    match o.attrGet "id" with
    | none => .error ("\x27" ++ o.typeName ++ "\x27 object has no attribute \x27id\x27")
    | some idv =>
      if idv.pyStr = orderId.pyStr
          || (o.attrD "client_order_id" (.pstr "")).pyStr = orderId.pyStr then
        .ok (some o)
      else scanOpenOrders orderId os

/-- One trade matches when any of its four id attributes is truthy and
stringifies to the searched order id. -/
def tradeMatches (orderId : PyVal) (t : PyVal) : Bool :=
  [t.attrD "order_id" .pnone, t.attrD "maker_order_id" .pnone,
   t.attrD "taker_order_id" .pnone, t.attrD "client_order_id" .pnone].any
    fun tid => tid.truthy && tid.pyStr = orderId.pyStr

/-- The reconstructed order object returned when the id is found in a
market's trade history. -/
def reconstructedOrder (orderId : PyVal) (marketName : PyVal) (t : PyVal) : PyVal :=
  serializeObject (.pdict
    [("id", orderId), ("market_name", marketName), ("status", .pstr "FILLED"),
     ("type", .pstr "UNKNOWN"), ("side", t.attrD "side" (.pstr "UNKNOWN")),
     ("amount", t.attrD "size" (.pint 0)), ("filled_amount", t.attrD "size" (.pint 0)),
     ("price", t.attrD "price" (.pint 0)), ("average_price", t.attrD "price" (.pint 0)),
     ("created_at", t.attrD "timestamp" .pnone)])

/-- "not found" message of `get_order_by_id`. -/
def orderNotFoundMsg (orderId : PyVal) : String :=
  "Order with ID " ++ orderId.pyStr ++ " not found in open orders or available trade history"

/-- Trade-history search of `get_order_by_id`: one `get_trades` call per
named market; a raising call or non-iterable result is swallowed by the
inner `except Exception: continue`. -/
def searchMarketTrades (orderId : PyVal) (env : List ExtRes) :
    List PyVal → Nat → PyVal × Nat
  | [], i => (errD (orderNotFoundMsg orderId), i)
  | m :: ms, i =>
    let nameAttr : Option PyVal :=
      match m.attrGet "name" with
      | some n => some n
      | none => match m with
        | .pdict fs => some ((PyVal.dictGet fs "name").getD .pnone)
        | _ => none
    match nameAttr with
    | none => (errD (orderNotFoundMsg orderId), i)
    | some nv =>
      if !nv.truthy then searchMarketTrades orderId env ms i
      else
        match callExt env i with
        | .raised _ => searchMarketTrades orderId env ms (i + 1)
        | .ok (.plist trades) =>
          match trades.find? (tradeMatches orderId) with
          | some t => (reconstructedOrder orderId nv t, i + 1)
          | none => searchMarketTrades orderId env ms (i + 1)
        | .ok _ => searchMarketTrades orderId env ms (i + 1)

/-- `ExtendedTradingService.get_order_by_id`. -/
def extGetOrderById (svc : ExtSvc) (orderId : PyVal) (env : List ExtRes) : PyVal × Nat :=
  if !svc.sdkAvailable || !svc.clientOk then
    (errD "SDK not available or trading client not initialized", 0)
  else
    match callExt env 0 with
    | .raised m => (errD ("Failed to get order by ID: " ++ m), 1)
    | .ok (.plist orders) =>
      (match scanOpenOrders orderId orders with
       | .error m => (errD ("Failed to get order by ID: " ++ m), 1)
       | .ok (some o) => (serializeObject o, 1)
       | .ok none =>
         match callExt env 1 with
         | .raised _ => (errD (orderNotFoundMsg orderId), 2)
         | .ok (.plist markets) => searchMarketTrades orderId env markets 2
         | .ok _ => (errD (orderNotFoundMsg orderId), 2))
    | .ok v =>
      (errD ("Failed to get order by ID: \x27" ++ v.typeName
        ++ "\x27 object is not iterable"), 1)

/-- `str(e)` of `decimal.InvalidOperation` from `Decimal(bad)`. -/
def decimalConversionMsg : String := "[<class \x27decimal.ConversionSyntax\x27>]"

/-- `ExtendedTradingService.place_order`: parameter conversion
(`OrderSide`, `Decimal`, `TimeInForce`) then one `place_order` SDK call. -/
def extPlaceOrder (svc : ExtSvc) (side amount price timeInForce : PyVal)
    (env : List ExtRes) : PyVal × Nat :=
  if !svc.sdkAvailable || !svc.clientOk then
    (errD "SDK not available or client not initialized", 0)
  else
    match side, timeInForce with
    | .pstr _, .pstr _ =>
      if !pyDecimalOk amount || !pyDecimalOk price then
        (errD ("Failed to place order: " ++ decimalConversionMsg), 0)
      else
        match callExt env 0 with
        | .raised m => (errD ("Failed to place order: " ++ m), 1)
        | .ok v => (serializeObject v, 1)
    | _, _ =>
      (errD ("Failed to place order: \x27" ++ side.typeName
        ++ "\x27 object has no attribute \x27upper\x27"), 0)

/-- `ExtendedTradingService.cancel_order` (sync variant): no SDK guard —
with the client `None` the attribute access raises inside the `try`. -/
def extCancelOrder (svc : ExtSvc) (env : List ExtRes) : PyVal × Nat :=
  if !svc.sdkAvailable || !svc.clientOk then
    (errD "Cancel order failed: \x27NoneType\x27 object has no attribute \x27orders\x27", 0)
  else
    match callExt env 0 with
    | .raised m => (errD ("Cancel order failed: " ++ m), 1)
    | .ok v =>
      (.pdict [("success", .pbool true), ("message", .pstr "Order cancelled successfully"),
        ("result", .pstr v.pyStr)], 1)

/-- `ExtendedTradingService.cancel_order_by_external_id`. -/
def extCancelOrderByExternalId (svc : ExtSvc) (env : List ExtRes) : PyVal × Nat :=
  if !svc.sdkAvailable || !svc.clientOk then
    (errD "SDK not available or client not initialized", 0)
  else
    match callExt env 0 with
    | .raised m => (errD ("Cancel order by external ID failed: " ++ m), 1)
    | .ok v =>
      (.pdict [("success", .pbool true), ("message", .pstr "Order cancelled successfully"),
        ("result", .pstr v.pyStr)], 1)

/-- Per-order cancel loop of `cancel_all_orders`: an order without an
integer-convertible `.id`, or a raising cancel call, is skipped by the
inner `except Exception: continue`. -/
def cancelLoop (env : List ExtRes) : List PyVal → Nat → List PyVal → List PyVal × Nat
  | [], i, acc => (acc.reverse, i)
  | o :: os, i, acc =>
    match o.attrGet "id" with
    | none => cancelLoop env os i acc
    | some idv =>
      if !pyIntOk idv then cancelLoop env os i acc
      else
        match callExt env i with
        | .raised _ => cancelLoop env os (i + 1) acc
        | .ok _ => cancelLoop env os (i + 1) (idv :: acc)

/-- `ExtendedTradingService.cancel_all_orders`. -/
def extCancelAllOrders (svc : ExtSvc) (env : List ExtRes) : PyVal × Nat :=
  if !svc.sdkAvailable || !svc.clientOk then
    (errD "SDK not available or client not initialized", 0)
  else
    match callExt env 0 with
    | .raised m => (errD ("Failed to cancel all orders: " ++ m), 1)
    | .ok v =>
      if !v.truthy then
        (.pdict [("message", .pstr "No orders to cancel"), ("cancelled_count", .pint 0)], 1)
      else
        match v with
        | .plist orders =>
          let (ids, i) := cancelLoop env orders 1 []
          (.pdict [("cancelled_orders", .plist ids),
            ("cancelled_count", .pint ids.length)], i)
        | _ =>
          (errD ("Failed to cancel all orders: \x27" ++ v.typeName
            ++ "\x27 object is not iterable"), 1)

/-- Find the first position dict whose `market_name` equals the target
(`close_position`); `.get` on a non-dict element raises. -/
def findPosition (marketName : PyVal) : List PyVal → Except String (Option PyVal)
  | [] => .ok none
  | p :: ps =>
    match p with
    | .pdict fs =>
      if pyEqB ((PyVal.dictGet fs "market_name").getD .pnone) marketName then
        .ok (some (.pdict fs))
      else findPosition marketName ps
    | v => .error ("\x27" ++ v.typeName ++ "\x27 object has no attribute \x27get\x27")

/-- `ExtendedTradingService.close_position`: fetch positions, locate the
one for the market, build the opposite-side market order via
`place_order` on the remaining oracle. -/
def extClosePosition (svc : ExtSvc) (marketName percentage : PyVal)
    (env : List ExtRes) : PyVal × Nat :=
  if !svc.sdkAvailable || !svc.clientOk then
    (errD "SDK not available or trading client not initialized", 0)
  else
    let pr := extGetPositions svc env
    match pr.1 with
    | .pdict fs =>
      if ((PyVal.dictGet fs "error").getD .pnone).truthy then (.pdict fs, pr.2)
      else (errD ("Failed to close position: \x27str\x27 object has no attribute \x27get\x27"),
        pr.2)
    | .plist ps =>
      (match findPosition marketName ps with
       | .error m => (errD ("Failed to close position: " ++ m), pr.2)
       | .ok none => (errD ("No position found for market " ++ marketName.pyStr), pr.2)
       | .ok (some p) =>
         let sizeV := match p with
           | .pdict pfs => (PyVal.dictGet pfs "size").getD (.pint 0)
           | _ => .pint 0
         match pyFloatStrVal sizeV.pyStr with
         | none => (errD ("Failed to close position: " ++ decimalConversionMsg), pr.2)
         | some szq =>
           match pyFloatParse percentage with
           | .error m => (errD ("Failed to close position: " ++ m), pr.2)
           | .ok pq =>
             let closeAmt := szq * (pq / 100)
             let sideV := match p with
               | .pdict pfs => (PyVal.dictGet pfs "side").getD (.pstr "LONG")
               | _ => .pstr "LONG"
             let closeSide := if pyEqB sideV (.pstr "LONG") then "SELL" else "BUY"
             let r2 := extPlaceOrder svc (.pstr closeSide) (.pstr (PyVal.decStr closeAmt))
               (.pstr "0") (.pstr "GTC") (env.drop pr.2)
             (r2.1, pr.2 + r2.2))
    | _ => (errD ("Failed to close position: \x27str\x27 object has no attribute \x27get\x27"),
        pr.2)

/-- `ExtendedTradingService.get_orderbook`. -/
def extGetOrderbook (svc : ExtSvc) (env : List ExtRes) : PyVal × Nat :=
  if !svc.sdkAvailable || !svc.clientOk then
    (errD "SDK not available or data client not initialized", 0)
  else
    match callExt env 0 with
    | .raised m => (errD ("Failed to get orderbook: " ++ m), 1)
    | .ok v => (serializeObject v, 1)

/-- `ExtendedTradingService.get_trades`. -/
def extGetTrades (svc : ExtSvc) (env : List ExtRes) : PyVal × Nat :=
  if !svc.sdkAvailable || !svc.clientOk then
    (errD "SDK not available or data client not initialized", 0)
  else
    match callExt env 0 with
    | .raised m => (errD ("Failed to get trades: " ++ m), 1)
    | .ok (.plist ts) => (.plist (serializeList ts), 1)
    | .ok v =>
      (errD ("Failed to get trades: \x27" ++ v.typeName ++ "\x27 object is not iterable"), 1)

/-- `ExtendedTradingService.withdraw`.  `str(Decimal(str(amount)))` is
the literal text again, so the echoed amount is `str(amount)`. -/
def extWithdraw (svc : ExtSvc) (amount starkAddress : PyVal)
    (env : List ExtRes) : PyVal × Nat :=
  if !svc.sdkAvailable || !svc.clientOk then
    (errD "SDK not available or trading client not initialized", 0)
  else if (pyFloatStrVal amount.pyStr).isNone then
    (errD ("Failed to submit withdrawal: " ++ decimalConversionMsg), 0)
  else
    match callExt env 0 with
    | .raised m => (errD ("Failed to submit withdrawal: " ++ m), 1)
    | .ok v =>
      (.pdict [("withdrawal_id", v), ("amount", .pstr amount.pyStr),
        ("stark_address", starkAddress), ("status", .pstr "submitted")], 1)

/-- `ExtendedTradingService.get_bridge_config`. -/
def extGetBridgeConfig (svc : ExtSvc) (env : List ExtRes) : PyVal × Nat :=
  if !svc.sdkAvailable || !svc.clientOk then
    (errD "SDK not available or trading client not initialized", 0)
  else
    match callExt env 0 with
    | .raised m => (errD ("Failed to get bridge config: " ++ m), 1)
    | .ok v => (serializeObject v, 1)

/-- `ExtendedTradingService.get_bridge_quote`. -/
def extGetBridgeQuote (svc : ExtSvc) (amount : PyVal) (env : List ExtRes) : PyVal × Nat :=
  if !svc.sdkAvailable || !svc.clientOk then
    (errD "SDK not available or trading client not initialized", 0)
  else if (pyFloatStrVal amount.pyStr).isNone then
    (errD ("Failed to get bridge quote: " ++ decimalConversionMsg), 0)
  else
    match callExt env 0 with
    | .raised m => (errD ("Failed to get bridge quote: " ++ m), 1)
    | .ok v => (serializeObject v, 1)

/-- `ExtendedTradingService.commit_bridge_quote`. -/
def extCommitBridgeQuote (svc : ExtSvc) (quoteId : PyVal) (env : List ExtRes) : PyVal × Nat :=
  if !svc.sdkAvailable || !svc.clientOk then
    (errD "SDK not available or trading client not initialized", 0)
  else
    match callExt env 0 with
    | .raised m => (errD ("Failed to commit bridge quote: " ++ m), 1)
    | .ok _ =>
      (.pdict [("success", .pbool true),
        ("message", .pstr "Bridge quote committed successfully"),
        ("quote_id", quoteId)], 1)

/-- `args.get(k)` with default `None` on a known dict. -/
def argGetN (fs : List (String × PyVal)) (k : String) : PyVal :=
  (PyVal.dictGet fs k).getD .pnone

/-- The `test_params` branch of `main` (lines 630-650): fixed field set;
secrets replaced by the mask exactly when their value is truthy. -/
def testParams (args : PyVal) (sdkAvailable clientOk : Bool) : Except String PyVal :=
  match args with
  | .pdict fs =>
    .ok (.pdict [
      ("success", .pbool true),
      ("message", .pstr "Parameters received correctly"),
      ("received_params", .pdict [
        ("api_key",
          if (argGetN fs "api_key").truthy then .pstr "***MASKED***" else .pnone),
        ("private_key",
          if (argGetN fs "private_key").truthy then .pstr "***MASKED***" else .pnone),
        ("public_key", argGetN fs "public_key"),
        ("vault", argGetN fs "vault"),
        ("environment", argGetN fs "environment"),
        ("test_param", argGetN fs "test_param"),
        ("timestamp", argGetN fs "timestamp"),
        ("all_args_keys", .plist (fs.map fun kv => .pstr kv.1))]),
      ("service_config", .pdict [
        ("sdk_available", .pbool sdkAvailable),
        ("trading_client_initialized", .pbool clientOk),
        ("data_client_initialized", .pbool clientOk)])])
  | v => .error ("\x27" ++ v.typeName ++ "\x27 object has no attribute \x27get\x27")

/-- A hexadecimal digit. -/
def isHexChar (c : Char) : Bool :=
  c.isDigit || ('a' ≤ c && c ≤ 'f') || ('A' ≤ c && c ≤ 'F')

/-- Hex digit run with single underscores between digits. -/
def pyHexDigitRun : List Char → Bool
  | [] => true
  | ['_'] => false
  | '_' :: c :: cs => isHexChar c && pyHexDigitRun (c :: cs)
  | c :: cs => isHexChar c && pyHexDigitRun cs

/-- Nonempty hex digit run. -/
def pyHexLit : List Char → Bool
  | [] => false
  | c :: rest => isHexChar c && pyHexDigitRun rest

/-- Body of a base-16 int literal: optional `0x`/`0X` prefix. -/
def pyHexBody : List Char → Bool
  | '0' :: 'x' :: rest => pyHexLit rest
  | '0' :: 'X' :: rest => pyHexLit rest
  | cs => pyHexLit cs

/-- `int(s, 16)` succeeds. -/
def pyHexStrOk (s : String) : Bool :=
  match stripWs s.data with
  | '+' :: rest => pyHexBody rest
  | '-' :: rest => pyHexBody rest
  | cs => pyHexBody cs

/-- The `get_public_key` branch: `int(private_key, 16)` when the key is
a string, then the `fast_stark_crypto.get_public_key` + `hex(...)` pair
modelled as one oracle call returning the hex string (a `NameError`
when the SDK import failed).  Errors propagate to the outer catch. -/
def extGetPublicKey (sdkAvailable : Bool) (pk : PyVal) (env : List ExtRes) :
    Except String (PyVal × Nat) :=
  match pk with
  | .pstr s =>
    if !pyHexStrOk s then
      .error ("invalid literal for int() with base 16: \x27" ++ s ++ "\x27")
    else if !sdkAvailable then .error "name \x27get_public_key\x27 is not defined"
    else
      match callExt env 0 with
      | .raised m => .error m
      | .ok v => .ok (.pdict [("starkKey", .pstr v.pyStr)], 1)
  | _ =>
    if !sdkAvailable then .error "name \x27get_public_key\x27 is not defined"
    else
      match callExt env 0 with
      | .raised m => .error m
      | .ok v => .ok (.pdict [("starkKey", .pstr v.pyStr)], 1)

/-- The commands of the async dispatch table in `main`. -/
def extAsyncCmds : List String :=
  ["get_markets", "get_account_info", "get_positions", "get_orders", "get_order_by_id",
   "place_order", "cancel_order", "cancel_order_by_external_id", "cancel_all_orders",
   "close_position", "get_orderbook", "get_trades", "withdraw", "get_bridge_config",
   "get_bridge_quote", "commit_bridge_quote", "test_params"]

/-- All commands `main` handles. -/
def extSupportedCmds : List String := extAsyncCmds ++ ["get_public_key"]

/-- `args[k]`: a `KeyError` stringifies to the quoted key. -/
def argsIdx (a : PyVal) (k : String) : Except String PyVal :=
  match a with
  | .pdict fs =>
    match PyVal.dictGet fs k with
    | some v => .ok v
    | none => .error ("\x27" ++ k ++ "\x27")
  | v => .error ("\x27" ++ v.typeName ++ "\x27 object is not subscriptable")

/-- `args.get(k, d)`. -/
def argsGetD (a : PyVal) (k : String) (d : PyVal) : PyVal :=
  match a with
  | .pdict fs => (PyVal.dictGet fs k).getD d
  | _ => d

/-- The `run_command` dispatch of `main`: per-command argument lookups
(performed while building the handler call, so raising before any SDK
call) followed by the handler.  Parameters that do not influence the
observable behaviour of a handler (they are merely forwarded inside the
single SDK call, e.g. `market_name`, `limit`, `post_only`) are looked
up but not threaded. -/
def extRunCommand (svc : ExtSvc) (cmd : String) (args : PyVal) (env : List ExtRes) :
    Except String (PyVal × Nat) :=
  if cmd = "get_markets" then .ok (extGetMarkets svc env)
  else if cmd = "get_account_info" then .ok (extGetAccountInfo svc env)
  else if cmd = "get_positions" then .ok (extGetPositions svc env)
  else if cmd = "get_orders" then .ok (extGetOrders svc env)
  else if cmd = "get_order_by_id" then
    (argsIdx args "order_id").map fun oid => extGetOrderById svc oid env
  else if cmd = "place_order" then
    (argsIdx args "market_name").bind fun _ =>
    (argsIdx args "side").bind fun sd =>
    (argsIdx args "amount").bind fun am =>
    (argsIdx args "price").map fun pr =>
      extPlaceOrder svc sd am pr (argsGetD args "time_in_force" (.pstr "GTC")) env
  else if cmd = "cancel_order" then
    (argsIdx args "external_id").map fun _ => extCancelOrder svc env
  else if cmd = "cancel_order_by_external_id" then
    (argsIdx args "external_id").map fun _ => extCancelOrderByExternalId svc env
  else if cmd = "cancel_all_orders" then .ok (extCancelAllOrders svc env)
  else if cmd = "close_position" then
    (argsIdx args "market_name").map fun mn =>
      extClosePosition svc mn (argsGetD args "percentage" (.pfloat 100)) env
  else if cmd = "get_orderbook" then
    (argsIdx args "market_name").map fun _ => extGetOrderbook svc env
  else if cmd = "get_trades" then
    (argsIdx args "market_name").map fun _ => extGetTrades svc env
  else if cmd = "withdraw" then
    (argsIdx args "amount").map fun am =>
      extWithdraw svc am (argsGetD args "stark_address" .pnone) env
  else if cmd = "get_bridge_config" then .ok (extGetBridgeConfig svc env)
  else if cmd = "get_bridge_quote" then
    (argsIdx args "chain_in").bind fun _ =>
    (argsIdx args "chain_out").bind fun _ =>
    (argsIdx args "amount").map fun am => extGetBridgeQuote svc am env
  else if cmd = "commit_bridge_quote" then
    (argsIdx args "quote_id").map fun qid => extCommitBridgeQuote svc qid env
  else if cmd = "test_params" then
    (testParams args svc.sdkAvailable svc.clientOk).map fun r => (r, 0)
  else .ok (errD ("Unknown command: " ++ cmd), 0)

/-- Body of `main`'s `try` for a given command name: credential lookups
feeding the constructor (which swallows its own failures, leaving the
clients `None` unless both the import and the SDK account setup
succeeded), then the dispatch. -/
def extTryBody (sdkAvailable initOk : Bool) (cmd : String) (args : PyVal)
    (env : List ExtRes) : Except String (PyVal × Nat) :=
  if cmd ∈ extAsyncCmds then
    (argsIdx args "api_key").bind fun _ =>
    (argsIdx args "private_key").bind fun _ =>
    (argsIdx args "public_key").bind fun _ =>
    (argsIdx args "vault").bind fun _ =>
      extRunCommand ⟨sdkAvailable, sdkAvailable && initOk⟩ cmd args env
  else if cmd = "get_public_key" then
    (argsIdx args "private_key").bind fun pk => extGetPublicKey sdkAvailable pk env
  else .ok (errD ("Unknown command: " ++ cmd), 0)

/-- The outer `except Exception` of `main`: a raise becomes the
`{"error": str(e)}` object (no SDK call was completed by the raising
path that reached here before the dispatch ran). -/
def runOf (e : Except String (PyVal × Nat)) : PyVal × Nat :=
  match e with
  | .ok p => p
  | .error m => (errD m, 0)

/-- Command processing with the outer `except` of `main` applied: the
response object that reaches `json.dumps`, plus the number of SDK calls
consumed (`0` when an exception pre-empted the dispatch). -/
def extRun (sdkAvailable initOk : Bool) (cmd : String) (args : PyVal)
    (env : List ExtRes) : PyVal × Nat :=
  runOf (extTryBody sdkAvailable initOk cmd args env)

/-- One run of `main()`: from SDK import success, constructor success,
`sys.argv[1]`, the parse of `sys.argv[2]` (absent / malformed / parsed)
and the SDK oracle, to the single JSON line printed on stdout and the
process exit code. -/
def extMain (sdkAvailable initOk : Bool) (argv1 : Option String)
    (argv2 : Option (Except String PyVal)) (env : List ExtRes) : PyVal × Nat :=
  match argv1 with
  | none => (errD "No command provided", 1)
  | some cmd =>
    if cmd ∈ extAsyncCmds || cmd = "get_public_key" then
      match argv2 with
      | none => (errD "list index out of range", 1)
      | some (.error m) => (errD m, 1)
      | some (.ok args) =>
        match extTryBody sdkAvailable initOk cmd args env with
        | .error m => (errD m, 1)
        | .ok (r, _) =>
          if jsonSerializable r then (r, 0)
          else (errD "Object is not JSON serializable", 1)
    else (errD ("Unknown command: " ++ cmd), 1)

/-! ## GRVT service (`grvt/python-service/service.py`) -/

/-- Outcome of one GRVT-SDK call: the call raised, returned a
`GrvtError` (whose `str(...)` is `msg`), or returned a response whose
unwrapped `.result` payload is `v` (the handlers unwrap uniformly via
`resp.result if hasattr(resp, 'result') else resp`; envelope-only
attributes such as `resp.next` are elided and default). -/
inductive GrvtRes where
  | raised (msg : String)
  | gerr (msg : String)
  | ok (v : PyVal)

/-- `GrvtService` state after `_initialize`: resolved credentials and
the id of the `GrvtRawSync` client created at startup. -/
structure GrvtSvc where
  accountId : PyVal
  privateKey : PyVal
  apiKey : PyVal
  fundingAddress : PyVal
  fundingPrivateKey : PyVal
  fundingApiKey : PyVal
  envName : String
  client : Nat
  deriving Repr

/-- ASCII `str.lower()` (the environment names are ASCII). -/
def lowerChar (c : Char) : Char :=
  if 'A' ≤ c && c ≤ 'Z' then Char.ofNat (c.toNat + 32) else c

/-- `s.lower()` over the characters of `s`. -/
def strLower (s : String) : String := String.mk (s.data.map lowerChar)

/-- `config.get(a) or config.get(b)` (Python `or` coalesces by
truthiness). -/
def orGet (fs : List (String × PyVal)) (a b : String) : PyVal :=
  let va := (PyVal.dictGet fs a).getD .pnone
  if va.truthy then va else (PyVal.dictGet fs b).getD .pnone

/-- `params.get(k) or fallback`. -/
def paramOr (fs : List (String × PyVal)) (k : String) (fallback : PyVal) : PyVal :=
  let v := (PyVal.dictGet fs k).getD .pnone
  if v.truthy then v else fallback

/-- `GrvtService.__init__` + `_initialize`: resolve credentials
(`trading_*` aliases first — the aliasing writes of `__init__` into
`config` are subsumed by the `or`-coalescing reads of `_initialize`),
require the three trading credentials truthy, resolve the environment,
and create the startup `GrvtRawSync` named `clientId`.
`Account.from_key` is modelled as succeeding.  Failures raise
`Failed to initialize GRVT API: ...` out of the constructor. -/
def grvtInit (params : List (String × PyVal)) (clientId : Nat) :
    Except String GrvtSvc :=
  let accountId := orGet params "trading_account_id" "account_id"
  let privateKey := orGet params "trading_private_key" "private_key"
  let apiKey := orGet params "trading_api_key" "api_key"
  if !accountId.truthy || !privateKey.truthy || !apiKey.truthy then
    .error ("Failed to initialize GRVT API: "
      ++ "Missing required credentials: account_id, private_key, api_key")
  else
    match (PyVal.dictGet params "environment").getD (.pstr "testnet") with
    | .pstr e =>
      let el := strLower e
      .ok { accountId := accountId, privateKey := privateKey, apiKey := apiKey,
            fundingAddress := (PyVal.dictGet params "funding_address").getD .pnone,
            fundingPrivateKey := (PyVal.dictGet params "funding_private_key").getD .pnone,
            fundingApiKey := (PyVal.dictGet params "funding_api_key").getD .pnone,
            envName := if el = "mainnet" then "prod"
              else if el = "staging" then "staging" else "testnet",
            client := clientId }
    | v =>
      .error ("Failed to initialize GRVT API: \x27" ++ v.typeName
        ++ "\x27 object has no attribute \x27lower\x27")

/-- Result of one GRVT handler run: response object, number of SDK calls
consumed, the client ids those calls went to, and the next fresh client
id (only the funding-credential handlers allocate one). -/
structure GrvtHRes where
  resp : PyVal
  calls : Nat
  clients : List Nat
  nextClient : Nat
  deriving Repr

/-- The `i`-th GRVT SDK call outcome. -/
def callGrvt (env : List GrvtRes) (i : Nat) : GrvtRes :=
  env.getD i (.raised "no response")

/-- `GrvtService.get_account_info`. -/
def grvtGetAccountInfo (svc : GrvtSvc) (env : List GrvtRes) (nc : Nat) : GrvtHRes :=
  match callGrvt env 0 with
  | .raised m => ⟨errD m, 1, [svc.client], nc⟩
  | .gerr m => ⟨errD m, 1, [svc.client], nc⟩
  | .ok v =>
    ⟨.pdict [
      ("available_for_trade", .pstr (v.attrD "available_balance" (.pstr "0")).pyStr),
      ("available_for_withdrawal", .pstr (v.attrD "available_balance" (.pstr "0")).pyStr),
      ("unrealised_pnl", .pstr (v.attrD "total_unrealised_pnl" (.pstr "0")).pyStr),
      ("realised_pnl", .pstr (v.attrD "total_realised_pnl" (.pstr "0")).pyStr),
      ("total_balance", .pstr (v.attrD "total_balance" (.pstr "0")).pyStr)],
     1, [svc.client], nc⟩

/-- Per-instrument reshaping of `GrvtService.get_markets`. -/
def grvtShapeMarket (inst : PyVal) : PyVal :=
  .pdict [
    ("name", inst.attrD "instrument" (.pstr "")),
    ("instrument", inst.attrD "instrument" (.pstr "")),
    ("active", .pbool true),
    ("market_stats", .pdict [
      ("ask_price", .pstr (inst.attrD "ask_price" (.pstr "0")).pyStr),
      ("bid_price", .pstr (inst.attrD "bid_price" (.pstr "0")).pyStr),
      ("funding_rate", .pstr (inst.attrD "funding_rate" (.pstr "0")).pyStr),
      ("open_interest", .pstr (inst.attrD "open_interest" (.pstr "0")).pyStr)]),
    ("trading_config", .pdict [
      ("min_order_size", .pstr (inst.attrD "min_size" (.pstr "0.001")).pyStr),
      ("min_order_size_change", .pstr (inst.attrD "size_step" (.pstr "0.001")).pyStr),
      ("min_price_change", .pstr (inst.attrD "price_step" (.pstr "0.01")).pyStr),
      ("max_market_order_value",
        .pstr (inst.attrD "max_market_order" (.pstr "1000000")).pyStr),
      ("max_limit_order_value",
        .pstr (inst.attrD "max_limit_order" (.pstr "1000000")).pyStr)])]

/-- `GrvtService.get_markets`. -/
def grvtGetMarkets (svc : GrvtSvc) (env : List GrvtRes) (nc : Nat) : GrvtHRes :=
  match callGrvt env 0 with
  | .raised m => ⟨errD m, 1, [svc.client], nc⟩
  | .gerr m => ⟨errD m, 1, [svc.client], nc⟩
  | .ok (.plist xs) => ⟨.plist (xs.map grvtShapeMarket), 1, [svc.client], nc⟩
  | .ok v =>
    ⟨errD ("\x27" ++ v.typeName ++ "\x27 object is not iterable"), 1, [svc.client], nc⟩

/-- Per-position reshaping of `GrvtService.get_positions`; the
`float(...)` conversions may raise. -/
def grvtShapePosition (pos : PyVal) : Except String PyVal :=
  match pyFloatParse (pos.attrD "size" (.pint 0)) with
  | .error m => .error m
  | .ok size =>
    match pyFloatParse (pos.attrD "mark_price" (.pint 0)) with
    | .error m => .error m
    | .ok markPrice =>
      .ok (.pdict [
        ("market", pos.attrD "instrument" (.pstr "")),
        ("instrument", pos.attrD "instrument" (.pstr "")),
        ("side", .pstr (if 0 < size then "long" else "short")),
        ("size", .pstr (PyVal.decStr size)),
        ("open_price", .pstr (pos.attrD "entry_price" (.pint 0)).pyStr),
        ("entry_price", .pstr (pos.attrD "entry_price" (.pint 0)).pyStr),
        ("mark_price", .pstr (PyVal.decStr markPrice)),
        ("liquidation_price", .pstr (pos.attrD "liquidation_price" (.pint 0)).pyStr),
        ("unrealised_pnl", .pstr (pos.attrD "unrealised_pnl" (.pint 0)).pyStr),
        ("realised_pnl", .pstr (pos.attrD "realised_pnl" (.pint 0)).pyStr),
        ("value", .pstr (PyVal.decStr |size * markPrice|)),
        ("last_order_id", pos.attrD "last_order_id" (.pstr "")),
        ("last_order_status", pos.attrD "last_order_status" (.pstr ""))])

/-- `grvtShapePosition` over the positions list (first failure aborts
the handler into its `except`). -/
def grvtShapePositions : List PyVal → Except String (List PyVal)
  | [] => .ok []
  | p :: ps =>
    match grvtShapePosition p with
    | .error m => .error m
    | .ok out =>
      match grvtShapePositions ps with
      | .error m => .error m
      | .ok outs => .ok (out :: outs)

/-- `GrvtService.get_positions`. -/
def grvtGetPositions (svc : GrvtSvc) (env : List GrvtRes) (nc : Nat) : GrvtHRes :=
  match callGrvt env 0 with
  | .raised m => ⟨errD m, 1, [svc.client], nc⟩
  | .gerr m => ⟨errD m, 1, [svc.client], nc⟩
  | .ok (.plist ps) =>
    (match grvtShapePositions ps with
     | .error m => ⟨errD m, 1, [svc.client], nc⟩
     | .ok outs => ⟨.plist outs, 1, [svc.client], nc⟩)
  | .ok v =>
    ⟨errD ("\x27" ++ v.typeName ++ "\x27 object is not iterable"), 1, [svc.client], nc⟩

/-- `result.state.status.name` with `'NEW'` fallback (`place_order`). -/
def grvtOrderStatus (result : PyVal) : PyVal :=
  match result.attrGet "state" with
  | some st =>
    match st.attrGet "status" with
    | some stat => stat.attrD "name" (.pstr "NEW")
    | none => .pstr "NEW"
  | none => .pstr "NEW"

/-- `GrvtService.place_order`.  The random 32-bit `client_order_id`
draw is passed in as `cid`; call 0 is `get_all_instruments_v1`, call 1
is `create_order_v1` (a `sign_order` failure is indistinguishable from
call 1 raising). -/
def grvtPlaceOrder (svc : GrvtSvc) (cid : Nat) (params : List (String × PyVal))
    (env : List GrvtRes) (nc : Nat) : GrvtHRes :=
  let clientOrderId := toString cid
  match PyVal.dictGet params "market_name" with
  | none => ⟨errD "\x27market_name\x27", 0, [], nc⟩
  | some _ =>
  match PyVal.dictGet params "amount" with
  | none => ⟨errD "\x27amount\x27", 0, [], nc⟩
  | some _ =>
  match PyVal.dictGet params "side" with
  | none => ⟨errD "\x27side\x27", 0, [], nc⟩
  | some _ =>
    match callGrvt env 0 with
    | .raised m => ⟨errD m, 1, [svc.client], nc⟩
    | .gerr m => ⟨errD ("Failed to get instruments: " ++ m), 1, [svc.client], nc⟩
    | .ok instv =>
      match instv with
      | .plist _ =>
        (match callGrvt env 1 with
         | .raised m => ⟨errD m, 2, [svc.client, svc.client], nc⟩
         | .gerr m => ⟨errD m, 2, [svc.client, svc.client], nc⟩
         | .ok result =>
           let orderIdV := (result.attrGet "order_id").getD .pnone
           let finalOrderId :=
             if !orderIdV.truthy || pyEqB orderIdV (.pstr "0x00") then
               .pstr clientOrderId
             else orderIdV
           ⟨.pdict [
             ("external_id", finalOrderId),
             ("order_id", finalOrderId),
             ("client_order_id", .pstr clientOrderId),
             ("grvt_order_id", orderIdV),
             ("status", grvtOrderStatus result)],
            2, [svc.client, svc.client], nc⟩)
      | _ =>
        ⟨errD ("\x27" ++ instv.typeName ++ "\x27 object is not iterable"),
         1, [svc.client], nc⟩

/-- The `ApiCancelOrderRequest` that `cancel_order_by_external_id`
builds and forwards to the SDK. -/
structure CancelReq where
  subAccountId : PyVal
  orderId : Option String
  clientOrderId : Option String
  deriving Repr

/-- Routing of the external id: `int(external_id)` succeeding selects
the `client_order_id` field, otherwise the `order_id` field (both via
`str(external_id)`). -/
def grvtBuildCancelReq (svc : GrvtSvc) (externalId : PyVal) : CancelReq :=
  if pyIntOk externalId then
    ⟨svc.accountId, none, some externalId.pyStr⟩
  else
    ⟨svc.accountId, some externalId.pyStr, none⟩

/-- `GrvtService.cancel_order_by_external_id`. -/
def grvtCancelOrderByExternalId (svc : GrvtSvc) (params : List (String × PyVal))
    (env : List GrvtRes) (nc : Nat) : GrvtHRes :=
  let externalId := (PyVal.dictGet params "external_id").getD .pnone
  let _req := grvtBuildCancelReq svc externalId
  match callGrvt env 0 with
  | .raised m => ⟨errD m, 1, [svc.client], nc⟩
  | .gerr m => ⟨errD m, 1, [svc.client], nc⟩
  | .ok _ => ⟨.pdict [("success", .pbool true)], 1, [svc.client], nc⟩

/-- `GrvtService.cancel_all_orders`. -/
def grvtCancelAllOrders (svc : GrvtSvc) (env : List GrvtRes) (nc : Nat) : GrvtHRes :=
  match callGrvt env 0 with
  | .raised m => ⟨errD m, 1, [svc.client], nc⟩
  | .gerr m => ⟨errD m, 1, [svc.client], nc⟩
  | .ok v =>
    ⟨.pdict [("success", .pbool true),
      ("cancelled_count", .pint (match v with | .plist xs => xs.length | _ => 0))],
     1, [svc.client], nc⟩

/-- `GrvtService.transfer`: after the funding-credential checks a fresh
`GrvtRawSync` (id `nc`) is created for the single `transfer_v1` call. -/
def grvtTransfer (svc : GrvtSvc) (params : List (String × PyVal))
    (env : List GrvtRes) (nc : Nat) : GrvtHRes :=
  let fundingAddress := paramOr params "funding_address" svc.fundingAddress
  let fundingPrivateKey := paramOr params "funding_private_key" svc.fundingPrivateKey
  let fundingApiKey := paramOr params "funding_api_key" svc.fundingApiKey
  let tradingAccountId := paramOr params "trading_account_id" svc.accountId
  if !fundingAddress.truthy then ⟨errD "Funding address is required", 0, [], nc⟩
  else if !fundingPrivateKey.truthy then
    ⟨errD "Funding private key is required", 0, [], nc⟩
  else if !fundingApiKey.truthy then ⟨errD "Funding API key is required", 0, [], nc⟩
  else
    match PyVal.dictGet params "amount" with
    | none => ⟨.pdict [("error", .pstr "\x27amount\x27"),
        ("traceback", .pstr "<traceback>")], 0, [], nc⟩
    | some amountV =>
      let direction := (PyVal.dictGet params "direction").getD (.pstr "to_trading")
      let currency := (PyVal.dictGet params "currency").getD (.pstr "USDC")
      let toTrading := pyEqB direction (.pstr "to_trading")
      let fromSub := if toTrading then "0" else tradingAccountId.pyStr
      let toSub := if toTrading then tradingAccountId.pyStr else "0"
      match callGrvt env 0 with
      | .raised m =>
        ⟨.pdict [("error", .pstr m), ("traceback", .pstr "<traceback>")],
         1, [nc], nc + 1⟩
      | .gerr m => ⟨errD m, 1, [nc], nc + 1⟩
      | .ok v =>
        ⟨.pdict [
          ("success", .pbool true),
          ("tx_id", v.attrD "tx_id" (.pstr "")),
          ("ack", v.attrD "ack" (.pbool true)),
          ("direction", direction),
          ("amount", .pstr amountV.pyStr),
          ("currency", currency),
          ("from_account", fundingAddress),
          ("from_sub_account", .pstr fromSub),
          ("to_sub_account", .pstr toSub)], 1, [nc], nc + 1⟩

/-- `transfer.transfer_type.name` with `''` fallback. -/
def grvtTransferTypeName (t : PyVal) : PyVal :=
  match t.attrGet "transfer_type" with
  | some tt => tt.attrD "name" (.pstr "")
  | none => .pstr ""

/-- Per-entry reshaping of `GrvtService.transfer_history`. -/
def grvtShapeTransfer (t : PyVal) : PyVal :=
  .pdict [
    ("tx_id", t.attrD "tx_id" (.pstr "")),
    ("from_account", t.attrD "from_account_id" (.pstr "")),
    ("from_sub_account", t.attrD "from_sub_account_id" (.pstr "")),
    ("to_account", t.attrD "to_account_id" (.pstr "")),
    ("to_sub_account", t.attrD "to_sub_account_id" (.pstr "")),
    ("currency", t.attrD "currency" (.pstr "")),
    ("amount", t.attrD "num_tokens" (.pstr "")),
    ("timestamp", t.attrD "event_time" (.pstr "")),
    ("type", grvtTransferTypeName t)]

/-- `GrvtService.transfer_history` (the envelope-only `resp.next`
defaults to `''` in the model). -/
def grvtTransferHistory (svc : GrvtSvc) (env : List GrvtRes) (nc : Nat) : GrvtHRes :=
  match callGrvt env 0 with
  | .raised m => ⟨errD m, 1, [svc.client], nc⟩
  | .gerr m => ⟨errD m, 1, [svc.client], nc⟩
  | .ok (.plist ts) =>
    ⟨.pdict [("transfers", .plist (ts.map grvtShapeTransfer)), ("next", .pstr "")],
     1, [svc.client], nc⟩
  | .ok v =>
    ⟨errD ("\x27" ++ v.typeName ++ "\x27 object is not iterable"), 1, [svc.client], nc⟩

/-- `GrvtService.withdraw`. -/
def grvtWithdraw (svc : GrvtSvc) (params : List (String × PyVal))
    (env : List GrvtRes) (nc : Nat) : GrvtHRes :=
  match PyVal.dictGet params "amount" with
  | none => ⟨errD "\x27amount\x27", 0, [], nc⟩
  | some _ =>
    match callGrvt env 0 with
    | .raised m => ⟨errD m, 1, [svc.client], nc⟩
    | .gerr m => ⟨errD m, 1, [svc.client], nc⟩
    | .ok v =>
      ⟨.pdict [("withdrawal_id", v.attrD "withdrawal_id" (.pstr ""))],
       1, [svc.client], nc⟩

/-- `GrvtService.get_order_history`: the result list is passed through
raw (`orders if isinstance(orders, list) else []`). -/
def grvtGetOrderHistory (svc : GrvtSvc) (env : List GrvtRes) (nc : Nat) : GrvtHRes :=
  match callGrvt env 0 with
  | .raised m => ⟨errD m, 1, [svc.client], nc⟩
  | .gerr m => ⟨errD m, 1, [svc.client], nc⟩
  | .ok v =>
    ⟨(match v with | .plist xs => .plist xs | _ => .plist []), 1, [svc.client], nc⟩

/-- `GrvtService.vault_invest` / `vault_redeem` (the two bodies are
line-identical up to the EIP712 type tag, which has no observable
effect in the model): funding-credential checks, `int(vault_id)` and
`float(amount)` conversions for the EIP712 message, then one vault call
on a fresh `GrvtRawSync` (id `nc`). -/
def grvtVaultOp (svc : GrvtSvc) (params : List (String × PyVal))
    (env : List GrvtRes) (nc : Nat) : GrvtHRes :=
  let fundingAddress := paramOr params "funding_address" svc.fundingAddress
  let fundingPrivateKey := paramOr params "funding_private_key" svc.fundingPrivateKey
  let fundingApiKey := paramOr params "funding_api_key" svc.fundingApiKey
  if !fundingAddress.truthy then ⟨errD "Funding address is required", 0, [], nc⟩
  else if !fundingPrivateKey.truthy then
    ⟨errD "Funding private key is required", 0, [], nc⟩
  else if !fundingApiKey.truthy then ⟨errD "Funding API key is required", 0, [], nc⟩
  else
    match PyVal.dictGet params "vault_id" with
    | none => ⟨errD "\x27vault_id\x27", 0, [], nc⟩
    | some vaultId =>
    match PyVal.dictGet params "amount" with
    | none => ⟨errD "\x27amount\x27", 0, [], nc⟩
    | some amountV =>
      if !pyIntOk vaultId then
        ⟨errD ("invalid literal for int() with base 10: \x27"
          ++ vaultId.pyStr ++ "\x27"), 0, [], nc⟩
      else
        match pyFloatParse (.pstr amountV.pyStr) with
        | .error m => ⟨errD m, 0, [], nc⟩
        | .ok _ =>
          let currency := (PyVal.dictGet params "currency").getD (.pstr "USDC")
          match callGrvt env 0 with
          | .raised m => ⟨errD m, 1, [nc], nc + 1⟩
          | .gerr m => ⟨errD m, 1, [nc], nc + 1⟩
          | .ok v =>
            ⟨.pdict [
              ("success", .pbool true),
              ("ack", v.attrD "ack" (.pbool true)),
              ("vault_id", vaultId),
              ("amount", .pstr amountV.pyStr),
              ("currency", currency)], 1, [nc], nc + 1⟩

/-- The public command handlers defined on `GrvtService`. -/
def grvtCmds : List String :=
  ["get_account_info", "get_markets", "get_positions", "place_order",
   "cancel_order_by_external_id", "cancel_all_orders", "transfer",
   "transfer_history", "withdraw", "get_order_history", "vault_invest",
   "vault_redeem"]

/-- Non-handler attributes of a `GrvtService` instance (assigned in
`__init__` / `_initialize`); `hasattr(service, name)` also holds for
these, so they shadow the unknown-command branch.  Inherited `object`
dunder attributes are elided from the model. -/
def grvtDataAttrs : List String :=
  ["config", "api", "account_id", "private_key", "api_key",
   "funding_address", "funding_private_key", "funding_api_key",
   "account", "env"]

/-- Runtime value of a non-handler attribute (for the type name in the
`not callable` message). -/
def grvtAttrVal (svc : GrvtSvc) : String → PyVal
  | "config" => .pdict []
  | "api" => .pother "GrvtRawSync"
  | "account_id" => svc.accountId
  | "private_key" => svc.privateKey
  | "api_key" => svc.apiKey
  | "funding_address" => svc.fundingAddress
  | "funding_private_key" => svc.fundingPrivateKey
  | "funding_api_key" => svc.fundingApiKey
  | "account" => .pother "LocalAccount"
  | "env" => .pother "GrvtEnv"
  | _ => .pnone

/-- `getattr(service, command)(params)` for a supported command. -/
def grvtDispatch (svc : GrvtSvc) (cmd : String) (params : List (String × PyVal))
    (cid : Nat) (env : List GrvtRes) (nc : Nat) : GrvtHRes :=
  if cmd = "get_account_info" then grvtGetAccountInfo svc env nc
  else if cmd = "get_markets" then grvtGetMarkets svc env nc
  else if cmd = "get_positions" then grvtGetPositions svc env nc
  else if cmd = "place_order" then grvtPlaceOrder svc cid params env nc
  else if cmd = "cancel_order_by_external_id" then
    grvtCancelOrderByExternalId svc params env nc
  else if cmd = "cancel_all_orders" then grvtCancelAllOrders svc env nc
  else if cmd = "transfer" then grvtTransfer svc params env nc
  else if cmd = "transfer_history" then grvtTransferHistory svc env nc
  else if cmd = "withdraw" then grvtWithdraw svc params env nc
  else if cmd = "get_order_history" then grvtGetOrderHistory svc env nc
  else if cmd = "vault_invest" then grvtVaultOp svc params env nc
  else if cmd = "vault_redeem" then grvtVaultOp svc params env nc
  else ⟨errD ("Unknown command: " ++ cmd), 0, [], nc⟩

/-- Cross-request state of the `__main__` loop: the lazily-created
service (holding the startup client) and the next fresh client id. -/
structure GrvtLoopSt where
  service : Option GrvtSvc
  nextClient : Nat
  deriving Repr

/-- Observable outcome of processing one stdin line: the JSON object
written to stdout, the new loop state, and the client ids used by SDK
calls during the request. -/
structure GrvtStepRes where
  line : PyVal
  state : GrvtLoopSt
  clients : List Nat
  deriving Repr

/-- Command execution once the service exists. -/
def grvtStepWith (st : GrvtLoopSt) (svc : GrvtSvc) (command : PyVal)
    (params : List (String × PyVal)) (cid : Nat) (env : List GrvtRes) : GrvtStepRes :=
  match command with
  | .pstr c =>
    if c ∈ grvtCmds then
      match grvtDispatch svc c params cid env st.nextClient with
      | h =>
        if jsonSerializable h.resp then
          ⟨.pdict [("data", h.resp)], { st with nextClient := h.nextClient }, h.clients⟩
        else
          ⟨errD "Object is not JSON serializable",
           { st with nextClient := h.nextClient }, h.clients⟩
    else if c = "_initialize" then
      ⟨errD "GrvtService._initialize() takes 1 positional argument but 2 were given",
       st, []⟩
    else if c ∈ grvtDataAttrs then
      ⟨errD ("\x27" ++ (grvtAttrVal svc c).typeName ++ "\x27 object is not callable"),
       st, []⟩
    else
      ⟨.pdict [("data", errD ("Unknown command: " ++ c))], st, []⟩
  | _ => ⟨errD "attribute name must be string", st, []⟩

/-- Processing of one stdin line by the `__main__` loop: JSON parse,
request-field extraction, lazy service construction on the first
request, dispatch, and the `json.dumps({'data': result})` emission —
with the loop-level `except` turning any raise into a top-level
`{"error": msg}` line.  `cid` is the id-generator draw used by
`place_order`, `env` the SDK oracle for this request. -/
def grvtStep (st : GrvtLoopSt) (line : Except String PyVal) (cid : Nat)
    (env : List GrvtRes) : GrvtStepRes :=
  match line with
  | .error m => ⟨errD m, st, []⟩
  | .ok req =>
    match req with
    | .pdict rfs =>
      let command := (PyVal.dictGet rfs "command").getD .pnone
      let paramsV := (PyVal.dictGet rfs "params").getD (.pdict [])
      match paramsV with
      | .pdict params =>
        (match st.service with
         | none =>
           (match grvtInit params st.nextClient with
            | .error m => ⟨errD m, st, []⟩
            | .ok svc =>
              grvtStepWith ⟨some svc, st.nextClient + 1⟩ svc command params cid env)
         | some svc => grvtStepWith st svc command params cid env)
      | v =>
        ⟨errD ("\x27" ++ v.typeName ++ "\x27 object has no attribute \x27get\x27"), st, []⟩
    | v =>
      ⟨errD ("\x27" ++ v.typeName ++ "\x27 object has no attribute \x27get\x27"), st, []⟩

/-- One request of the stream: the parsed line, the id-generator draw
and the SDK oracle for that request. -/
structure GrvtReq where
  line : Except String PyVal
  cid : Nat
  env : List GrvtRes

/-- The whole `__main__` loop over a request stream, collecting each
emitted line with the client ids its SDK calls used. -/
def grvtLoop (st : GrvtLoopSt) : List GrvtReq → List (PyVal × List Nat) × GrvtLoopSt
  | [] => ([], st)
  | r :: rs =>
    let s := grvtStep st r.line r.cid r.env
    let rest := grvtLoop s.state rs
    ((s.line, s.clients) :: rest.1, rest.2)

/-! ## Error-surfacing lemmas (first SDK call raising) -/

/-- The property the error-handling claims track: the response carries a
top-level `error` key and at most one SDK call was consumed. -/
def goodResp (p : PyVal × Nat) : Prop :=
  hasErrorKey p.1 = true ∧ p.2 ≤ 1

theorem goodResp_errD (m : String) (k : Nat) (hk : k ≤ 1) : goodResp (errD m, k) :=
  ⟨rfl, hk⟩

theorem goodResp_runOf_bind (x : Except String PyVal)
    (f : PyVal → Except String (PyVal × Nat))
    (h : ∀ v, goodResp (runOf (f v))) : goodResp (runOf (x.bind f)) := by
  cases x with
  | error m => exact goodResp_errD m 0 (by omega)
  | ok v => exact h v

theorem goodResp_runOf_map (x : Except String PyVal) (g : PyVal → PyVal × Nat)
    (h : ∀ v, goodResp (g v)) : goodResp (runOf (x.map g)) := by
  cases x with
  | error m => exact goodResp_errD m 0 (by omega)
  | ok v => exact h v

theorem callExt_of_head {env : List ExtRes} {r : ExtRes}
    (h : env.head? = some r) (d : ExtRes) : env.getD 0 d = r := by
  cases env with
  | nil => simp at h
  | cons a l => simp_all [List.getD]

theorem callGrvt_of_head {env : List GrvtRes} {r : GrvtRes}
    (h : env.head? = some r) (d : GrvtRes) : env.getD 0 d = r := by
  cases env with
  | nil => simp at h
  | cons a l => simp_all [List.getD]

theorem extGetMarkets_raise (svc : ExtSvc) (env : List ExtRes) (m : String)
    (hc : callExt env 0 = .raised m) : goodResp (extGetMarkets svc env) := by
  rcases svc with ⟨sa, co⟩
  cases sa <;> cases co <;>
    simp [extGetMarkets, hc, goodResp, hasErrorKey, errD, PyVal.dictGet]

theorem extGetAccountInfo_raise (svc : ExtSvc) (env : List ExtRes) (m : String)
    (hc : callExt env 0 = .raised m) : goodResp (extGetAccountInfo svc env) := by
  rcases svc with ⟨sa, co⟩
  cases sa <;> cases co <;>
    simp [extGetAccountInfo, hc, goodResp, hasErrorKey, errD, PyVal.dictGet]

theorem extGetPositions_raise (svc : ExtSvc) (env : List ExtRes) (m : String)
    (hc : callExt env 0 = .raised m) : goodResp (extGetPositions svc env) := by
  rcases svc with ⟨sa, co⟩
  cases sa <;> cases co <;>
    simp [extGetPositions, hc, goodResp, hasErrorKey, errD, PyVal.dictGet]

theorem extGetOrders_raise (svc : ExtSvc) (env : List ExtRes) (m : String)
    (hc : callExt env 0 = .raised m) : goodResp (extGetOrders svc env) := by
  rcases svc with ⟨sa, co⟩
  cases sa <;> cases co <;>
    simp [extGetOrders, hc, goodResp, hasErrorKey, errD, PyVal.dictGet]

theorem extGetOrderById_raise (svc : ExtSvc) (oid : PyVal) (env : List ExtRes)
    (m : String) (hc : callExt env 0 = .raised m) :
    goodResp (extGetOrderById svc oid env) := by
  rcases svc with ⟨sa, co⟩
  cases sa <;> cases co <;>
    simp [extGetOrderById, hc, goodResp, hasErrorKey, errD, PyVal.dictGet]

theorem extPlaceOrder_raise (svc : ExtSvc) (side amount price tif : PyVal)
    (env : List ExtRes) (m : String) (hc : callExt env 0 = .raised m) :
    goodResp (extPlaceOrder svc side amount price tif env) := by
  rcases svc with ⟨sa, co⟩
  cases hdp : (!pyDecimalOk amount || !pyDecimalOk price) <;>
    cases sa <;> cases co <;> cases side <;> cases tif <;>
      simp [extPlaceOrder, hdp, hc, goodResp, hasErrorKey, errD, PyVal.dictGet]

theorem extCancelOrder_raise (svc : ExtSvc) (env : List ExtRes) (m : String)
    (hc : callExt env 0 = .raised m) : goodResp (extCancelOrder svc env) := by
  rcases svc with ⟨sa, co⟩
  cases sa <;> cases co <;>
    simp [extCancelOrder, hc, goodResp, hasErrorKey, errD, PyVal.dictGet]

theorem extCancelOrderByExternalId_raise (svc : ExtSvc) (env : List ExtRes)
    (m : String) (hc : callExt env 0 = .raised m) :
    goodResp (extCancelOrderByExternalId svc env) := by
  rcases svc with ⟨sa, co⟩
  cases sa <;> cases co <;>
    simp [extCancelOrderByExternalId, hc, goodResp, hasErrorKey, errD, PyVal.dictGet]

theorem extCancelAllOrders_raise (svc : ExtSvc) (env : List ExtRes) (m : String)
    (hc : callExt env 0 = .raised m) : goodResp (extCancelAllOrders svc env) := by
  rcases svc with ⟨sa, co⟩
  cases sa <;> cases co <;>
    simp [extCancelAllOrders, hc, goodResp, hasErrorKey, errD, PyVal.dictGet]

theorem extGetOrderbook_raise (svc : ExtSvc) (env : List ExtRes) (m : String)
    (hc : callExt env 0 = .raised m) : goodResp (extGetOrderbook svc env) := by
  rcases svc with ⟨sa, co⟩
  cases sa <;> cases co <;>
    simp [extGetOrderbook, hc, goodResp, hasErrorKey, errD, PyVal.dictGet]

theorem extGetTrades_raise (svc : ExtSvc) (env : List ExtRes) (m : String)
    (hc : callExt env 0 = .raised m) : goodResp (extGetTrades svc env) := by
  rcases svc with ⟨sa, co⟩
  cases sa <;> cases co <;>
    simp [extGetTrades, hc, goodResp, hasErrorKey, errD, PyVal.dictGet]

theorem extWithdraw_raise (svc : ExtSvc) (amount sa2 : PyVal) (env : List ExtRes)
    (m : String) (hc : callExt env 0 = .raised m) :
    goodResp (extWithdraw svc amount sa2 env) := by
  rcases svc with ⟨sa, co⟩
  by_cases hp : pyFloatStrVal amount.pyStr = none <;>
    cases sa <;> cases co <;>
      simp [extWithdraw, hp, hc, goodResp, hasErrorKey, errD, PyVal.dictGet]

theorem extGetBridgeConfig_raise (svc : ExtSvc) (env : List ExtRes) (m : String)
    (hc : callExt env 0 = .raised m) : goodResp (extGetBridgeConfig svc env) := by
  rcases svc with ⟨sa, co⟩
  cases sa <;> cases co <;>
    simp [extGetBridgeConfig, hc, goodResp, hasErrorKey, errD, PyVal.dictGet]

theorem extGetBridgeQuote_raise (svc : ExtSvc) (amount : PyVal) (env : List ExtRes)
    (m : String) (hc : callExt env 0 = .raised m) :
    goodResp (extGetBridgeQuote svc amount env) := by
  rcases svc with ⟨sa, co⟩
  by_cases hp : pyFloatStrVal amount.pyStr = none <;>
    cases sa <;> cases co <;>
      simp [extGetBridgeQuote, hp, hc, goodResp, hasErrorKey, errD, PyVal.dictGet]

theorem extCommitBridgeQuote_raise (svc : ExtSvc) (quoteId : PyVal)
    (env : List ExtRes) (m : String) (hc : callExt env 0 = .raised m) :
    goodResp (extCommitBridgeQuote svc quoteId env) := by
  rcases svc with ⟨sa, co⟩
  cases sa <;> cases co <;>
    simp [extCommitBridgeQuote, hc, goodResp, hasErrorKey, errD, PyVal.dictGet]

theorem failedPositions_truthy (m : String) :
    PyVal.truthy (.pstr ("Failed to get positions: " ++ m)) = true := rfl

theorem extClosePosition_raise (svc : ExtSvc) (mn pct : PyVal) (env : List ExtRes)
    (m : String) (hc : callExt env 0 = .raised m) :
    goodResp (extClosePosition svc mn pct env) := by
  rcases svc with ⟨sa, co⟩
  cases sa <;> cases co <;>
    simp [extClosePosition, extGetPositions, hc, goodResp, hasErrorKey, errD,
      PyVal.dictGet, failedPositions_truthy]

/-- `goodResp` phrased for GRVT handler results. -/
def goodHRes (h : GrvtHRes) : Prop :=
  hasErrorKey h.resp = true ∧ h.calls ≤ 1

theorem grvtGetAccountInfo_raise (svc : GrvtSvc) (env : List GrvtRes) (nc : Nat)
    (m : String) (hc : callGrvt env 0 = .raised m) :
    goodHRes (grvtGetAccountInfo svc env nc) := by
  simp [grvtGetAccountInfo, hc, goodHRes, hasErrorKey, errD, PyVal.dictGet]

theorem grvtGetMarkets_raise (svc : GrvtSvc) (env : List GrvtRes) (nc : Nat)
    (m : String) (hc : callGrvt env 0 = .raised m) :
    goodHRes (grvtGetMarkets svc env nc) := by
  simp [grvtGetMarkets, hc, goodHRes, hasErrorKey, errD, PyVal.dictGet]

theorem grvtGetPositions_raise (svc : GrvtSvc) (env : List GrvtRes) (nc : Nat)
    (m : String) (hc : callGrvt env 0 = .raised m) :
    goodHRes (grvtGetPositions svc env nc) := by
  simp [grvtGetPositions, hc, goodHRes, hasErrorKey, errD, PyVal.dictGet]

theorem grvtPlaceOrder_raise (svc : GrvtSvc) (cid : Nat)
    (params : List (String × PyVal)) (env : List GrvtRes) (nc : Nat)
    (m : String) (hc : callGrvt env 0 = .raised m) :
    goodHRes (grvtPlaceOrder svc cid params env nc) := by
  unfold grvtPlaceOrder
  cases PyVal.dictGet params "market_name" <;>
    cases PyVal.dictGet params "amount" <;>
    cases PyVal.dictGet params "side" <;>
    simp [hc, goodHRes, hasErrorKey, errD, PyVal.dictGet]

theorem grvtCancelOrderByExternalId_raise (svc : GrvtSvc)
    (params : List (String × PyVal)) (env : List GrvtRes) (nc : Nat)
    (m : String) (hc : callGrvt env 0 = .raised m) :
    goodHRes (grvtCancelOrderByExternalId svc params env nc) := by
  simp [grvtCancelOrderByExternalId, hc, goodHRes, hasErrorKey, errD, PyVal.dictGet]

theorem grvtCancelAllOrders_raise (svc : GrvtSvc) (env : List GrvtRes) (nc : Nat)
    (m : String) (hc : callGrvt env 0 = .raised m) :
    goodHRes (grvtCancelAllOrders svc env nc) := by
  simp [grvtCancelAllOrders, hc, goodHRes, hasErrorKey, errD, PyVal.dictGet]

theorem grvtTransfer_raise (svc : GrvtSvc) (params : List (String × PyVal))
    (env : List GrvtRes) (nc : Nat) (m : String)
    (hc : callGrvt env 0 = .raised m) :
    goodHRes (grvtTransfer svc params env nc) := by
  unfold grvtTransfer
  cases h1 : (paramOr params "funding_address" svc.fundingAddress).truthy <;>
  cases h2 : (paramOr params "funding_private_key" svc.fundingPrivateKey).truthy <;>
  cases h3 : (paramOr params "funding_api_key" svc.fundingApiKey).truthy <;>
  cases hAm : PyVal.dictGet params "amount" <;>
    simp [h1, h2, h3, hAm, hc, goodHRes, hasErrorKey, errD, PyVal.dictGet]

theorem grvtTransferHistory_raise (svc : GrvtSvc) (env : List GrvtRes) (nc : Nat)
    (m : String) (hc : callGrvt env 0 = .raised m) :
    goodHRes (grvtTransferHistory svc env nc) := by
  simp [grvtTransferHistory, hc, goodHRes, hasErrorKey, errD, PyVal.dictGet]

theorem grvtWithdraw_raise (svc : GrvtSvc) (params : List (String × PyVal))
    (env : List GrvtRes) (nc : Nat) (m : String)
    (hc : callGrvt env 0 = .raised m) :
    goodHRes (grvtWithdraw svc params env nc) := by
  unfold grvtWithdraw
  cases PyVal.dictGet params "amount" <;>
    simp [hc, goodHRes, hasErrorKey, errD, PyVal.dictGet]

theorem grvtGetOrderHistory_raise (svc : GrvtSvc) (env : List GrvtRes) (nc : Nat)
    (m : String) (hc : callGrvt env 0 = .raised m) :
    goodHRes (grvtGetOrderHistory svc env nc) := by
  simp [grvtGetOrderHistory, hc, goodHRes, hasErrorKey, errD, PyVal.dictGet]

theorem grvtVaultOp_raise (svc : GrvtSvc) (params : List (String × PyVal))
    (env : List GrvtRes) (nc : Nat) (m : String)
    (hc : callGrvt env 0 = .raised m) :
    goodHRes (grvtVaultOp svc params env nc) := by
  unfold grvtVaultOp
  cases h1 : (paramOr params "funding_address" svc.fundingAddress).truthy
  · simp [h1, goodHRes, hasErrorKey, errD, PyVal.dictGet]
  cases h2 : (paramOr params "funding_private_key" svc.fundingPrivateKey).truthy
  · simp [h1, h2, goodHRes, hasErrorKey, errD, PyVal.dictGet]
  cases h3 : (paramOr params "funding_api_key" svc.fundingApiKey).truthy
  · simp [h1, h2, h3, goodHRes, hasErrorKey, errD, PyVal.dictGet]
  cases hV : PyVal.dictGet params "vault_id"
  · simp [h1, h2, h3, hV, goodHRes, hasErrorKey, errD, PyVal.dictGet]
  rename_i vid
  cases hA : PyVal.dictGet params "amount"
  · simp [h1, h2, h3, hV, hA, goodHRes, hasErrorKey, errD, PyVal.dictGet]
  rename_i amt
  cases hIk : pyIntOk vid
  · simp [h1, h2, h3, hV, hA, hIk, goodHRes, hasErrorKey, errD, PyVal.dictGet]
  cases hFp : pyFloatParse (.pstr amt.pyStr)
  · simp [h1, h2, h3, hV, hA, hIk, hFp, goodHRes, hasErrorKey, errD, PyVal.dictGet]
  · simp [h1, h2, h3, hV, hA, hIk, hFp, hc, goodHRes, hasErrorKey, errD,
      PyVal.dictGet]

theorem extGetPublicKey_raise (sa : Bool) (pk : PyVal) (env : List ExtRes)
    (m : String) (hc : callExt env 0 = .raised m) :
    goodResp (runOf (extGetPublicKey sa pk env)) := by
  cases pk <;> cases sa <;>
    first
    | (rename_i s
       cases hx : pyHexStrOk s <;>
         simp [extGetPublicKey, runOf, hx, hc, goodResp, hasErrorKey, errD,
           PyVal.dictGet])
    | simp [extGetPublicKey, runOf, hc, goodResp, hasErrorKey, errD, PyVal.dictGet]

/-- C1, counterexample: in the Extended service, an SDK exception raised
by the per-order cancel call inside `cancel_all_orders` is swallowed by
the inner `except Exception: continue`; the handler then returns a
success-shaped object with no `error` key anywhere, contradicting the
claim that any exception raised while executing an SDK call is surfaced
as a response with an `error` key. -/
theorem C1_counterexample_cancel_all_swallows :
    extCancelAllOrders ⟨true, true⟩
        [.ok (.plist [.pobj [("id", .pstr "7")]]), .raised "boom"]
      = (.pdict [("cancelled_orders", .plist []), ("cancelled_count", .pint 0)], 2) ∧
    hasErrorKeyDeep (extCancelAllOrders ⟨true, true⟩
        [.ok (.plist [.pobj [("id", .pstr "7")]]), .raised "boom"]).1 = false :=
  ⟨rfl, rfl⟩

/-- C1 (amended): in both services, when the first SDK call of a request
raises, the exception is caught inside the service and surfaced as a
response object with an `error` key, and no further SDK call is made
(nothing is retried); the only exceptions to surfacing are the
Extended bulk/search handlers (`cancel_all_orders`, `get_order_by_id`),
which swallow failures of their per-item follow-up calls, and
`test_params`, which performs no SDK call. -/
theorem C1_amended_first_raise_surfaced :
    (∀ cmd ∈ extSupportedCmds, cmd ≠ "test_params" →
      ∀ (sdkA initOk : Bool) (args : PyVal) (env : List ExtRes) (m : String),
        env.head? = some (.raised m) →
        goodResp (extRun sdkA initOk cmd args env)) ∧
    (∀ cmd ∈ grvtCmds,
      ∀ (svc : GrvtSvc) (params : List (String × PyVal)) (cid : Nat)
        (env : List GrvtRes) (nc : Nat) (m : String),
        env.head? = some (.raised m) →
        goodHRes (grvtDispatch svc cmd params cid env nc)) := by
  constructor
  · intro cmd hmem hne sdkA initOk args env m h
    have hc : callExt env 0 = .raised m := callExt_of_head h _
    fin_cases hmem
    · exact goodResp_runOf_bind _ _ fun _ => goodResp_runOf_bind _ _ fun _ =>
        goodResp_runOf_bind _ _ fun _ => goodResp_runOf_bind _ _ fun _ =>
        extGetMarkets_raise _ env m hc
    · exact goodResp_runOf_bind _ _ fun _ => goodResp_runOf_bind _ _ fun _ =>
        goodResp_runOf_bind _ _ fun _ => goodResp_runOf_bind _ _ fun _ =>
        extGetAccountInfo_raise _ env m hc
    · exact goodResp_runOf_bind _ _ fun _ => goodResp_runOf_bind _ _ fun _ =>
        goodResp_runOf_bind _ _ fun _ => goodResp_runOf_bind _ _ fun _ =>
        extGetPositions_raise _ env m hc
    · exact goodResp_runOf_bind _ _ fun _ => goodResp_runOf_bind _ _ fun _ =>
        goodResp_runOf_bind _ _ fun _ => goodResp_runOf_bind _ _ fun _ =>
        extGetOrders_raise _ env m hc
    · exact goodResp_runOf_bind _ _ fun _ => goodResp_runOf_bind _ _ fun _ =>
        goodResp_runOf_bind _ _ fun _ => goodResp_runOf_bind _ _ fun _ =>
        goodResp_runOf_map _ _ fun oid => extGetOrderById_raise _ oid env m hc
    · exact goodResp_runOf_bind _ _ fun _ => goodResp_runOf_bind _ _ fun _ =>
        goodResp_runOf_bind _ _ fun _ => goodResp_runOf_bind _ _ fun _ =>
        goodResp_runOf_bind _ _ fun _ => goodResp_runOf_bind _ _ fun sd =>
        goodResp_runOf_bind _ _ fun am => goodResp_runOf_map _ _ fun pr =>
        extPlaceOrder_raise _ sd am pr _ env m hc
    · exact goodResp_runOf_bind _ _ fun _ => goodResp_runOf_bind _ _ fun _ =>
        goodResp_runOf_bind _ _ fun _ => goodResp_runOf_bind _ _ fun _ =>
        goodResp_runOf_map _ _ fun _ => extCancelOrder_raise _ env m hc
    · exact goodResp_runOf_bind _ _ fun _ => goodResp_runOf_bind _ _ fun _ =>
        goodResp_runOf_bind _ _ fun _ => goodResp_runOf_bind _ _ fun _ =>
        goodResp_runOf_map _ _ fun _ => extCancelOrderByExternalId_raise _ env m hc
    · exact goodResp_runOf_bind _ _ fun _ => goodResp_runOf_bind _ _ fun _ =>
        goodResp_runOf_bind _ _ fun _ => goodResp_runOf_bind _ _ fun _ =>
        extCancelAllOrders_raise _ env m hc
    · exact goodResp_runOf_bind _ _ fun _ => goodResp_runOf_bind _ _ fun _ =>
        goodResp_runOf_bind _ _ fun _ => goodResp_runOf_bind _ _ fun _ =>
        goodResp_runOf_map _ _ fun mn => extClosePosition_raise _ mn _ env m hc
    · exact goodResp_runOf_bind _ _ fun _ => goodResp_runOf_bind _ _ fun _ =>
        goodResp_runOf_bind _ _ fun _ => goodResp_runOf_bind _ _ fun _ =>
        goodResp_runOf_map _ _ fun _ => extGetOrderbook_raise _ env m hc
    · exact goodResp_runOf_bind _ _ fun _ => goodResp_runOf_bind _ _ fun _ =>
        goodResp_runOf_bind _ _ fun _ => goodResp_runOf_bind _ _ fun _ =>
        goodResp_runOf_map _ _ fun _ => extGetTrades_raise _ env m hc
    · exact goodResp_runOf_bind _ _ fun _ => goodResp_runOf_bind _ _ fun _ =>
        goodResp_runOf_bind _ _ fun _ => goodResp_runOf_bind _ _ fun _ =>
        goodResp_runOf_map _ _ fun am => extWithdraw_raise _ am _ env m hc
    · exact goodResp_runOf_bind _ _ fun _ => goodResp_runOf_bind _ _ fun _ =>
        goodResp_runOf_bind _ _ fun _ => goodResp_runOf_bind _ _ fun _ =>
        extGetBridgeConfig_raise _ env m hc
    · exact goodResp_runOf_bind _ _ fun _ => goodResp_runOf_bind _ _ fun _ =>
        goodResp_runOf_bind _ _ fun _ => goodResp_runOf_bind _ _ fun _ =>
        goodResp_runOf_bind _ _ fun _ => goodResp_runOf_bind _ _ fun _ =>
        goodResp_runOf_map _ _ fun am => extGetBridgeQuote_raise _ am env m hc
    · exact goodResp_runOf_bind _ _ fun _ => goodResp_runOf_bind _ _ fun _ =>
        goodResp_runOf_bind _ _ fun _ => goodResp_runOf_bind _ _ fun _ =>
        goodResp_runOf_map _ _ fun qid => extCommitBridgeQuote_raise _ qid env m hc
    · exact absurd rfl hne
    · exact goodResp_runOf_bind _ _ fun pk => extGetPublicKey_raise _ pk env m hc
  · intro cmd hmem svc params cid env nc m h
    have hc : callGrvt env 0 = .raised m := callGrvt_of_head h _
    fin_cases hmem
    · exact grvtGetAccountInfo_raise svc env nc m hc
    · exact grvtGetMarkets_raise svc env nc m hc
    · exact grvtGetPositions_raise svc env nc m hc
    · exact grvtPlaceOrder_raise svc cid params env nc m hc
    · exact grvtCancelOrderByExternalId_raise svc params env nc m hc
    · exact grvtCancelAllOrders_raise svc env nc m hc
    · exact grvtTransfer_raise svc params env nc m hc
    · exact grvtTransferHistory_raise svc env nc m hc
    · exact grvtWithdraw_raise svc params env nc m hc
    · exact grvtGetOrderHistory_raise svc env nc m hc
    · exact grvtVaultOp_raise svc params env nc m hc
    · exact grvtVaultOp_raise svc params env nc m hc

/-- C1 witness: the amended theorem applied to a concrete raising oracle
for `get_markets` (Extended) and `get_account_info` (GRVT). -/
theorem C1_amended_first_raise_surfaced_witness :
    goodResp (extRun true true "get_markets"
      (.pdict [("api_key", .pstr "k"), ("private_key", .pstr "p"),
        ("public_key", .pstr "q"), ("vault", .pint 1)]) [.raised "boom"]) ∧
    goodHRes (grvtDispatch ⟨.pstr "7", .pstr "k", .pstr "a", .pnone, .pnone, .pnone,
      "testnet", 0⟩ "get_account_info" [] 0 [.raised "boom"] 1) :=
  ⟨C1_amended_first_raise_surfaced.1 "get_markets" (by decide) (by decide)
      true true _ _ "boom" rfl,
   C1_amended_first_raise_surfaced.2 "get_account_info" (by decide)
      _ [] 0 _ 1 "boom" rfl⟩

/-- Field lookup on a dict value (for stating response-shape claims). -/
def dGet : PyVal → String → Option PyVal
  | .pdict fs, k => PyVal.dictGet fs k
  | _, _ => none

/-- The request keys a given Extended command reads with `args[...]`
before its SDK call: the four constructor credentials for every async
command, plus the per-command positional parameters of `run_command`. -/
def extRequiredKeys : String → List String
  | "get_public_key" => ["private_key"]
  | "get_order_by_id" => ["api_key", "private_key", "public_key", "vault", "order_id"]
  | "place_order" =>
    ["api_key", "private_key", "public_key", "vault",
     "market_name", "side", "amount", "price"]
  | "cancel_order" => ["api_key", "private_key", "public_key", "vault", "external_id"]
  | "cancel_order_by_external_id" =>
    ["api_key", "private_key", "public_key", "vault", "external_id"]
  | "close_position" => ["api_key", "private_key", "public_key", "vault", "market_name"]
  | "get_orderbook" => ["api_key", "private_key", "public_key", "vault", "market_name"]
  | "get_trades" => ["api_key", "private_key", "public_key", "vault", "market_name"]
  | "withdraw" => ["api_key", "private_key", "public_key", "vault", "amount"]
  | "get_bridge_quote" =>
    ["api_key", "private_key", "public_key", "vault", "chain_in", "chain_out", "amount"]
  | "commit_bridge_quote" => ["api_key", "private_key", "public_key", "vault", "quote_id"]
  | _ => ["api_key", "private_key", "public_key", "vault"]

/-- The params keys a GRVT handler reads with `params[...]` before its
SDK call. -/
def grvtRequiredKeys : String → List String
  | "place_order" => ["market_name", "amount", "side"]
  | "transfer" => ["amount"]
  | "withdraw" => ["amount"]
  | "vault_invest" => ["vault_id", "amount"]
  | "vault_redeem" => ["vault_id", "amount"]
  | _ => []

/-- C2: in both transports a malformed request or a missing required
parameter is turned into a JSON response carrying an `error` field:
(1) an unparseable Extended argument payload, (2) an absent Extended
argument payload, (3) a missing required key for any supported
Extended command, (4) an unparseable GRVT stdin line, and (5) a
missing required key for any GRVT command.  No exception escapes: the
transports are total functions producing exactly one JSON line. -/
theorem C2_missing_param_yields_error :
    (∀ (sdkA initOk : Bool) (cmd m : String) (env : List ExtRes),
      hasErrorKeyDeep (extMain sdkA initOk (some cmd) (some (.error m)) env).1 = true) ∧
    (∀ (sdkA initOk : Bool) (cmd : String) (env : List ExtRes),
      hasErrorKeyDeep (extMain sdkA initOk (some cmd) none env).1 = true) ∧
    (∀ (sdkA initOk : Bool) (cmd : String), cmd ∈ extSupportedCmds →
      ∀ (args : List (String × PyVal)) (env : List ExtRes) (p : String),
        p ∈ extRequiredKeys cmd → PyVal.dictGet args p = none →
        hasErrorKeyDeep (extMain sdkA initOk (some cmd)
          (some (.ok (.pdict args))) env).1 = true) ∧
    (∀ (st : GrvtLoopSt) (m : String) (cid : Nat) (env : List GrvtRes),
      (grvtStep st (.error m) cid env).line = errD m) ∧
    (∀ (svc : GrvtSvc) (params : List (String × PyVal)) (cid : Nat)
      (env : List GrvtRes) (nc : Nat) (cmd : String), cmd ∈ grvtCmds →
      ∀ p ∈ grvtRequiredKeys cmd, PyVal.dictGet params p = none →
      hasErrorKey (grvtDispatch svc cmd params cid env nc).resp = true) := by
  refine ⟨?_, ?_, ?_, ?_, ?_⟩
  · intro sdkA initOk cmd m env
    simp only [extMain]
    split <;> simp [hasErrorKeyDeep, errD, PyVal.dictGet, hasErrorKeyDeepFields]
  · intro sdkA initOk cmd env
    simp only [extMain]
    split <;> simp [hasErrorKeyDeep, errD, PyVal.dictGet, hasErrorKeyDeepFields]
  · intro sdkA initOk cmd hmem args env p hp hm
    fin_cases hmem
    · -- get_markets
      cases h0 : PyVal.dictGet args "api_key"
      · simp [extMain, extTryBody, extAsyncCmds, extRunCommand, argsIdx, Except.bind, Except.map, hasErrorKeyDeep, errD, PyVal.dictGet, hasErrorKeyDeepFields, h0]
      cases h1 : PyVal.dictGet args "private_key"
      · simp [extMain, extTryBody, extAsyncCmds, extRunCommand, argsIdx, Except.bind, Except.map, hasErrorKeyDeep, errD, PyVal.dictGet, hasErrorKeyDeepFields, h0, h1]
      cases h2 : PyVal.dictGet args "public_key"
      · simp [extMain, extTryBody, extAsyncCmds, extRunCommand, argsIdx, Except.bind, Except.map, hasErrorKeyDeep, errD, PyVal.dictGet, hasErrorKeyDeepFields, h0, h1, h2]
      cases h3 : PyVal.dictGet args "vault"
      · simp [extMain, extTryBody, extAsyncCmds, extRunCommand, argsIdx, Except.bind, Except.map, hasErrorKeyDeep, errD, PyVal.dictGet, hasErrorKeyDeepFields, h0, h1, h2, h3]
      fin_cases hp <;> simp_all [extRequiredKeys]
    · -- get_account_info
      cases h0 : PyVal.dictGet args "api_key"
      · simp [extMain, extTryBody, extAsyncCmds, extRunCommand, argsIdx, Except.bind, Except.map, hasErrorKeyDeep, errD, PyVal.dictGet, hasErrorKeyDeepFields, h0]
      cases h1 : PyVal.dictGet args "private_key"
      · simp [extMain, extTryBody, extAsyncCmds, extRunCommand, argsIdx, Except.bind, Except.map, hasErrorKeyDeep, errD, PyVal.dictGet, hasErrorKeyDeepFields, h0, h1]
      cases h2 : PyVal.dictGet args "public_key"
      · simp [extMain, extTryBody, extAsyncCmds, extRunCommand, argsIdx, Except.bind, Except.map, hasErrorKeyDeep, errD, PyVal.dictGet, hasErrorKeyDeepFields, h0, h1, h2]
      cases h3 : PyVal.dictGet args "vault"
      · simp [extMain, extTryBody, extAsyncCmds, extRunCommand, argsIdx, Except.bind, Except.map, hasErrorKeyDeep, errD, PyVal.dictGet, hasErrorKeyDeepFields, h0, h1, h2, h3]
      fin_cases hp <;> simp_all [extRequiredKeys]
    · -- get_positions
      cases h0 : PyVal.dictGet args "api_key"
      · simp [extMain, extTryBody, extAsyncCmds, extRunCommand, argsIdx, Except.bind, Except.map, hasErrorKeyDeep, errD, PyVal.dictGet, hasErrorKeyDeepFields, h0]
      cases h1 : PyVal.dictGet args "private_key"
      · simp [extMain, extTryBody, extAsyncCmds, extRunCommand, argsIdx, Except.bind, Except.map, hasErrorKeyDeep, errD, PyVal.dictGet, hasErrorKeyDeepFields, h0, h1]
      cases h2 : PyVal.dictGet args "public_key"
      · simp [extMain, extTryBody, extAsyncCmds, extRunCommand, argsIdx, Except.bind, Except.map, hasErrorKeyDeep, errD, PyVal.dictGet, hasErrorKeyDeepFields, h0, h1, h2]
      cases h3 : PyVal.dictGet args "vault"
      · simp [extMain, extTryBody, extAsyncCmds, extRunCommand, argsIdx, Except.bind, Except.map, hasErrorKeyDeep, errD, PyVal.dictGet, hasErrorKeyDeepFields, h0, h1, h2, h3]
      fin_cases hp <;> simp_all [extRequiredKeys]
    · -- get_orders
      cases h0 : PyVal.dictGet args "api_key"
      · simp [extMain, extTryBody, extAsyncCmds, extRunCommand, argsIdx, Except.bind, Except.map, hasErrorKeyDeep, errD, PyVal.dictGet, hasErrorKeyDeepFields, h0]
      cases h1 : PyVal.dictGet args "private_key"
      · simp [extMain, extTryBody, extAsyncCmds, extRunCommand, argsIdx, Except.bind, Except.map, hasErrorKeyDeep, errD, PyVal.dictGet, hasErrorKeyDeepFields, h0, h1]
      cases h2 : PyVal.dictGet args "public_key"
      · simp [extMain, extTryBody, extAsyncCmds, extRunCommand, argsIdx, Except.bind, Except.map, hasErrorKeyDeep, errD, PyVal.dictGet, hasErrorKeyDeepFields, h0, h1, h2]
      cases h3 : PyVal.dictGet args "vault"
      · simp [extMain, extTryBody, extAsyncCmds, extRunCommand, argsIdx, Except.bind, Except.map, hasErrorKeyDeep, errD, PyVal.dictGet, hasErrorKeyDeepFields, h0, h1, h2, h3]
      fin_cases hp <;> simp_all [extRequiredKeys]
    · -- get_order_by_id
      cases h0 : PyVal.dictGet args "api_key"
      · simp [extMain, extTryBody, extAsyncCmds, extRunCommand, argsIdx, Except.bind, Except.map, hasErrorKeyDeep, errD, PyVal.dictGet, hasErrorKeyDeepFields, h0]
      cases h1 : PyVal.dictGet args "private_key"
      · simp [extMain, extTryBody, extAsyncCmds, extRunCommand, argsIdx, Except.bind, Except.map, hasErrorKeyDeep, errD, PyVal.dictGet, hasErrorKeyDeepFields, h0, h1]
      cases h2 : PyVal.dictGet args "public_key"
      · simp [extMain, extTryBody, extAsyncCmds, extRunCommand, argsIdx, Except.bind, Except.map, hasErrorKeyDeep, errD, PyVal.dictGet, hasErrorKeyDeepFields, h0, h1, h2]
      cases h3 : PyVal.dictGet args "vault"
      · simp [extMain, extTryBody, extAsyncCmds, extRunCommand, argsIdx, Except.bind, Except.map, hasErrorKeyDeep, errD, PyVal.dictGet, hasErrorKeyDeepFields, h0, h1, h2, h3]
      cases h4 : PyVal.dictGet args "order_id"
      · simp [extMain, extTryBody, extAsyncCmds, extRunCommand, argsIdx, Except.bind, Except.map, hasErrorKeyDeep, errD, PyVal.dictGet, hasErrorKeyDeepFields, h0, h1, h2, h3, h4]
      fin_cases hp <;> simp_all [extRequiredKeys]
    · -- place_order
      cases h0 : PyVal.dictGet args "api_key"
      · simp [extMain, extTryBody, extAsyncCmds, extRunCommand, argsIdx, Except.bind, Except.map, hasErrorKeyDeep, errD, PyVal.dictGet, hasErrorKeyDeepFields, h0]
      cases h1 : PyVal.dictGet args "private_key"
      · simp [extMain, extTryBody, extAsyncCmds, extRunCommand, argsIdx, Except.bind, Except.map, hasErrorKeyDeep, errD, PyVal.dictGet, hasErrorKeyDeepFields, h0, h1]
      cases h2 : PyVal.dictGet args "public_key"
      · simp [extMain, extTryBody, extAsyncCmds, extRunCommand, argsIdx, Except.bind, Except.map, hasErrorKeyDeep, errD, PyVal.dictGet, hasErrorKeyDeepFields, h0, h1, h2]
      cases h3 : PyVal.dictGet args "vault"
      · simp [extMain, extTryBody, extAsyncCmds, extRunCommand, argsIdx, Except.bind, Except.map, hasErrorKeyDeep, errD, PyVal.dictGet, hasErrorKeyDeepFields, h0, h1, h2, h3]
      cases h4 : PyVal.dictGet args "market_name"
      · simp [extMain, extTryBody, extAsyncCmds, extRunCommand, argsIdx, Except.bind, Except.map, hasErrorKeyDeep, errD, PyVal.dictGet, hasErrorKeyDeepFields, h0, h1, h2, h3, h4]
      cases h5 : PyVal.dictGet args "side"
      · simp [extMain, extTryBody, extAsyncCmds, extRunCommand, argsIdx, Except.bind, Except.map, hasErrorKeyDeep, errD, PyVal.dictGet, hasErrorKeyDeepFields, h0, h1, h2, h3, h4, h5]
      cases h6 : PyVal.dictGet args "amount"
      · simp [extMain, extTryBody, extAsyncCmds, extRunCommand, argsIdx, Except.bind, Except.map, hasErrorKeyDeep, errD, PyVal.dictGet, hasErrorKeyDeepFields, h0, h1, h2, h3, h4, h5, h6]
      cases h7 : PyVal.dictGet args "price"
      · simp [extMain, extTryBody, extAsyncCmds, extRunCommand, argsIdx, Except.bind, Except.map, hasErrorKeyDeep, errD, PyVal.dictGet, hasErrorKeyDeepFields, h0, h1, h2, h3, h4, h5, h6, h7]
      fin_cases hp <;> simp_all [extRequiredKeys]
    · -- cancel_order
      cases h0 : PyVal.dictGet args "api_key"
      · simp [extMain, extTryBody, extAsyncCmds, extRunCommand, argsIdx, Except.bind, Except.map, hasErrorKeyDeep, errD, PyVal.dictGet, hasErrorKeyDeepFields, h0]
      cases h1 : PyVal.dictGet args "private_key"
      · simp [extMain, extTryBody, extAsyncCmds, extRunCommand, argsIdx, Except.bind, Except.map, hasErrorKeyDeep, errD, PyVal.dictGet, hasErrorKeyDeepFields, h0, h1]
      cases h2 : PyVal.dictGet args "public_key"
      · simp [extMain, extTryBody, extAsyncCmds, extRunCommand, argsIdx, Except.bind, Except.map, hasErrorKeyDeep, errD, PyVal.dictGet, hasErrorKeyDeepFields, h0, h1, h2]
      cases h3 : PyVal.dictGet args "vault"
      · simp [extMain, extTryBody, extAsyncCmds, extRunCommand, argsIdx, Except.bind, Except.map, hasErrorKeyDeep, errD, PyVal.dictGet, hasErrorKeyDeepFields, h0, h1, h2, h3]
      cases h4 : PyVal.dictGet args "external_id"
      · simp [extMain, extTryBody, extAsyncCmds, extRunCommand, argsIdx, Except.bind, Except.map, hasErrorKeyDeep, errD, PyVal.dictGet, hasErrorKeyDeepFields, h0, h1, h2, h3, h4]
      fin_cases hp <;> simp_all [extRequiredKeys]
    · -- cancel_order_by_external_id
      cases h0 : PyVal.dictGet args "api_key"
      · simp [extMain, extTryBody, extAsyncCmds, extRunCommand, argsIdx, Except.bind, Except.map, hasErrorKeyDeep, errD, PyVal.dictGet, hasErrorKeyDeepFields, h0]
      cases h1 : PyVal.dictGet args "private_key"
      · simp [extMain, extTryBody, extAsyncCmds, extRunCommand, argsIdx, Except.bind, Except.map, hasErrorKeyDeep, errD, PyVal.dictGet, hasErrorKeyDeepFields, h0, h1]
      cases h2 : PyVal.dictGet args "public_key"
      · simp [extMain, extTryBody, extAsyncCmds, extRunCommand, argsIdx, Except.bind, Except.map, hasErrorKeyDeep, errD, PyVal.dictGet, hasErrorKeyDeepFields, h0, h1, h2]
      cases h3 : PyVal.dictGet args "vault"
      · simp [extMain, extTryBody, extAsyncCmds, extRunCommand, argsIdx, Except.bind, Except.map, hasErrorKeyDeep, errD, PyVal.dictGet, hasErrorKeyDeepFields, h0, h1, h2, h3]
      cases h4 : PyVal.dictGet args "external_id"
      · simp [extMain, extTryBody, extAsyncCmds, extRunCommand, argsIdx, Except.bind, Except.map, hasErrorKeyDeep, errD, PyVal.dictGet, hasErrorKeyDeepFields, h0, h1, h2, h3, h4]
      fin_cases hp <;> simp_all [extRequiredKeys]
    · -- cancel_all_orders
      cases h0 : PyVal.dictGet args "api_key"
      · simp [extMain, extTryBody, extAsyncCmds, extRunCommand, argsIdx, Except.bind, Except.map, hasErrorKeyDeep, errD, PyVal.dictGet, hasErrorKeyDeepFields, h0]
      cases h1 : PyVal.dictGet args "private_key"
      · simp [extMain, extTryBody, extAsyncCmds, extRunCommand, argsIdx, Except.bind, Except.map, hasErrorKeyDeep, errD, PyVal.dictGet, hasErrorKeyDeepFields, h0, h1]
      cases h2 : PyVal.dictGet args "public_key"
      · simp [extMain, extTryBody, extAsyncCmds, extRunCommand, argsIdx, Except.bind, Except.map, hasErrorKeyDeep, errD, PyVal.dictGet, hasErrorKeyDeepFields, h0, h1, h2]
      cases h3 : PyVal.dictGet args "vault"
      · simp [extMain, extTryBody, extAsyncCmds, extRunCommand, argsIdx, Except.bind, Except.map, hasErrorKeyDeep, errD, PyVal.dictGet, hasErrorKeyDeepFields, h0, h1, h2, h3]
      fin_cases hp <;> simp_all [extRequiredKeys]
    · -- close_position
      cases h0 : PyVal.dictGet args "api_key"
      · simp [extMain, extTryBody, extAsyncCmds, extRunCommand, argsIdx, Except.bind, Except.map, hasErrorKeyDeep, errD, PyVal.dictGet, hasErrorKeyDeepFields, h0]
      cases h1 : PyVal.dictGet args "private_key"
      · simp [extMain, extTryBody, extAsyncCmds, extRunCommand, argsIdx, Except.bind, Except.map, hasErrorKeyDeep, errD, PyVal.dictGet, hasErrorKeyDeepFields, h0, h1]
      cases h2 : PyVal.dictGet args "public_key"
      · simp [extMain, extTryBody, extAsyncCmds, extRunCommand, argsIdx, Except.bind, Except.map, hasErrorKeyDeep, errD, PyVal.dictGet, hasErrorKeyDeepFields, h0, h1, h2]
      cases h3 : PyVal.dictGet args "vault"
      · simp [extMain, extTryBody, extAsyncCmds, extRunCommand, argsIdx, Except.bind, Except.map, hasErrorKeyDeep, errD, PyVal.dictGet, hasErrorKeyDeepFields, h0, h1, h2, h3]
      cases h4 : PyVal.dictGet args "market_name"
      · simp [extMain, extTryBody, extAsyncCmds, extRunCommand, argsIdx, Except.bind, Except.map, hasErrorKeyDeep, errD, PyVal.dictGet, hasErrorKeyDeepFields, h0, h1, h2, h3, h4]
      fin_cases hp <;> simp_all [extRequiredKeys]
    · -- get_orderbook
      cases h0 : PyVal.dictGet args "api_key"
      · simp [extMain, extTryBody, extAsyncCmds, extRunCommand, argsIdx, Except.bind, Except.map, hasErrorKeyDeep, errD, PyVal.dictGet, hasErrorKeyDeepFields, h0]
      cases h1 : PyVal.dictGet args "private_key"
      · simp [extMain, extTryBody, extAsyncCmds, extRunCommand, argsIdx, Except.bind, Except.map, hasErrorKeyDeep, errD, PyVal.dictGet, hasErrorKeyDeepFields, h0, h1]
      cases h2 : PyVal.dictGet args "public_key"
      · simp [extMain, extTryBody, extAsyncCmds, extRunCommand, argsIdx, Except.bind, Except.map, hasErrorKeyDeep, errD, PyVal.dictGet, hasErrorKeyDeepFields, h0, h1, h2]
      cases h3 : PyVal.dictGet args "vault"
      · simp [extMain, extTryBody, extAsyncCmds, extRunCommand, argsIdx, Except.bind, Except.map, hasErrorKeyDeep, errD, PyVal.dictGet, hasErrorKeyDeepFields, h0, h1, h2, h3]
      cases h4 : PyVal.dictGet args "market_name"
      · simp [extMain, extTryBody, extAsyncCmds, extRunCommand, argsIdx, Except.bind, Except.map, hasErrorKeyDeep, errD, PyVal.dictGet, hasErrorKeyDeepFields, h0, h1, h2, h3, h4]
      fin_cases hp <;> simp_all [extRequiredKeys]
    · -- get_trades
      cases h0 : PyVal.dictGet args "api_key"
      · simp [extMain, extTryBody, extAsyncCmds, extRunCommand, argsIdx, Except.bind, Except.map, hasErrorKeyDeep, errD, PyVal.dictGet, hasErrorKeyDeepFields, h0]
      cases h1 : PyVal.dictGet args "private_key"
      · simp [extMain, extTryBody, extAsyncCmds, extRunCommand, argsIdx, Except.bind, Except.map, hasErrorKeyDeep, errD, PyVal.dictGet, hasErrorKeyDeepFields, h0, h1]
      cases h2 : PyVal.dictGet args "public_key"
      · simp [extMain, extTryBody, extAsyncCmds, extRunCommand, argsIdx, Except.bind, Except.map, hasErrorKeyDeep, errD, PyVal.dictGet, hasErrorKeyDeepFields, h0, h1, h2]
      cases h3 : PyVal.dictGet args "vault"
      · simp [extMain, extTryBody, extAsyncCmds, extRunCommand, argsIdx, Except.bind, Except.map, hasErrorKeyDeep, errD, PyVal.dictGet, hasErrorKeyDeepFields, h0, h1, h2, h3]
      cases h4 : PyVal.dictGet args "market_name"
      · simp [extMain, extTryBody, extAsyncCmds, extRunCommand, argsIdx, Except.bind, Except.map, hasErrorKeyDeep, errD, PyVal.dictGet, hasErrorKeyDeepFields, h0, h1, h2, h3, h4]
      fin_cases hp <;> simp_all [extRequiredKeys]
    · -- withdraw
      cases h0 : PyVal.dictGet args "api_key"
      · simp [extMain, extTryBody, extAsyncCmds, extRunCommand, argsIdx, Except.bind, Except.map, hasErrorKeyDeep, errD, PyVal.dictGet, hasErrorKeyDeepFields, h0]
      cases h1 : PyVal.dictGet args "private_key"
      · simp [extMain, extTryBody, extAsyncCmds, extRunCommand, argsIdx, Except.bind, Except.map, hasErrorKeyDeep, errD, PyVal.dictGet, hasErrorKeyDeepFields, h0, h1]
      cases h2 : PyVal.dictGet args "public_key"
      · simp [extMain, extTryBody, extAsyncCmds, extRunCommand, argsIdx, Except.bind, Except.map, hasErrorKeyDeep, errD, PyVal.dictGet, hasErrorKeyDeepFields, h0, h1, h2]
      cases h3 : PyVal.dictGet args "vault"
      · simp [extMain, extTryBody, extAsyncCmds, extRunCommand, argsIdx, Except.bind, Except.map, hasErrorKeyDeep, errD, PyVal.dictGet, hasErrorKeyDeepFields, h0, h1, h2, h3]
      cases h4 : PyVal.dictGet args "amount"
      · simp [extMain, extTryBody, extAsyncCmds, extRunCommand, argsIdx, Except.bind, Except.map, hasErrorKeyDeep, errD, PyVal.dictGet, hasErrorKeyDeepFields, h0, h1, h2, h3, h4]
      fin_cases hp <;> simp_all [extRequiredKeys]
    · -- get_bridge_config
      cases h0 : PyVal.dictGet args "api_key"
      · simp [extMain, extTryBody, extAsyncCmds, extRunCommand, argsIdx, Except.bind, Except.map, hasErrorKeyDeep, errD, PyVal.dictGet, hasErrorKeyDeepFields, h0]
      cases h1 : PyVal.dictGet args "private_key"
      · simp [extMain, extTryBody, extAsyncCmds, extRunCommand, argsIdx, Except.bind, Except.map, hasErrorKeyDeep, errD, PyVal.dictGet, hasErrorKeyDeepFields, h0, h1]
      cases h2 : PyVal.dictGet args "public_key"
      · simp [extMain, extTryBody, extAsyncCmds, extRunCommand, argsIdx, Except.bind, Except.map, hasErrorKeyDeep, errD, PyVal.dictGet, hasErrorKeyDeepFields, h0, h1, h2]
      cases h3 : PyVal.dictGet args "vault"
      · simp [extMain, extTryBody, extAsyncCmds, extRunCommand, argsIdx, Except.bind, Except.map, hasErrorKeyDeep, errD, PyVal.dictGet, hasErrorKeyDeepFields, h0, h1, h2, h3]
      fin_cases hp <;> simp_all [extRequiredKeys]
    · -- get_bridge_quote
      cases h0 : PyVal.dictGet args "api_key"
      · simp [extMain, extTryBody, extAsyncCmds, extRunCommand, argsIdx, Except.bind, Except.map, hasErrorKeyDeep, errD, PyVal.dictGet, hasErrorKeyDeepFields, h0]
      cases h1 : PyVal.dictGet args "private_key"
      · simp [extMain, extTryBody, extAsyncCmds, extRunCommand, argsIdx, Except.bind, Except.map, hasErrorKeyDeep, errD, PyVal.dictGet, hasErrorKeyDeepFields, h0, h1]
      cases h2 : PyVal.dictGet args "public_key"
      · simp [extMain, extTryBody, extAsyncCmds, extRunCommand, argsIdx, Except.bind, Except.map, hasErrorKeyDeep, errD, PyVal.dictGet, hasErrorKeyDeepFields, h0, h1, h2]
      cases h3 : PyVal.dictGet args "vault"
      · simp [extMain, extTryBody, extAsyncCmds, extRunCommand, argsIdx, Except.bind, Except.map, hasErrorKeyDeep, errD, PyVal.dictGet, hasErrorKeyDeepFields, h0, h1, h2, h3]
      cases h4 : PyVal.dictGet args "chain_in"
      · simp [extMain, extTryBody, extAsyncCmds, extRunCommand, argsIdx, Except.bind, Except.map, hasErrorKeyDeep, errD, PyVal.dictGet, hasErrorKeyDeepFields, h0, h1, h2, h3, h4]
      cases h5 : PyVal.dictGet args "chain_out"
      · simp [extMain, extTryBody, extAsyncCmds, extRunCommand, argsIdx, Except.bind, Except.map, hasErrorKeyDeep, errD, PyVal.dictGet, hasErrorKeyDeepFields, h0, h1, h2, h3, h4, h5]
      cases h6 : PyVal.dictGet args "amount"
      · simp [extMain, extTryBody, extAsyncCmds, extRunCommand, argsIdx, Except.bind, Except.map, hasErrorKeyDeep, errD, PyVal.dictGet, hasErrorKeyDeepFields, h0, h1, h2, h3, h4, h5, h6]
      fin_cases hp <;> simp_all [extRequiredKeys]
    · -- commit_bridge_quote
      cases h0 : PyVal.dictGet args "api_key"
      · simp [extMain, extTryBody, extAsyncCmds, extRunCommand, argsIdx, Except.bind, Except.map, hasErrorKeyDeep, errD, PyVal.dictGet, hasErrorKeyDeepFields, h0]
      cases h1 : PyVal.dictGet args "private_key"
      · simp [extMain, extTryBody, extAsyncCmds, extRunCommand, argsIdx, Except.bind, Except.map, hasErrorKeyDeep, errD, PyVal.dictGet, hasErrorKeyDeepFields, h0, h1]
      cases h2 : PyVal.dictGet args "public_key"
      · simp [extMain, extTryBody, extAsyncCmds, extRunCommand, argsIdx, Except.bind, Except.map, hasErrorKeyDeep, errD, PyVal.dictGet, hasErrorKeyDeepFields, h0, h1, h2]
      cases h3 : PyVal.dictGet args "vault"
      · simp [extMain, extTryBody, extAsyncCmds, extRunCommand, argsIdx, Except.bind, Except.map, hasErrorKeyDeep, errD, PyVal.dictGet, hasErrorKeyDeepFields, h0, h1, h2, h3]
      cases h4 : PyVal.dictGet args "quote_id"
      · simp [extMain, extTryBody, extAsyncCmds, extRunCommand, argsIdx, Except.bind, Except.map, hasErrorKeyDeep, errD, PyVal.dictGet, hasErrorKeyDeepFields, h0, h1, h2, h3, h4]
      fin_cases hp <;> simp_all [extRequiredKeys]
    · -- test_params
      cases h0 : PyVal.dictGet args "api_key"
      · simp [extMain, extTryBody, extAsyncCmds, extRunCommand, argsIdx, Except.bind, Except.map, hasErrorKeyDeep, errD, PyVal.dictGet, hasErrorKeyDeepFields, h0]
      cases h1 : PyVal.dictGet args "private_key"
      · simp [extMain, extTryBody, extAsyncCmds, extRunCommand, argsIdx, Except.bind, Except.map, hasErrorKeyDeep, errD, PyVal.dictGet, hasErrorKeyDeepFields, h0, h1]
      cases h2 : PyVal.dictGet args "public_key"
      · simp [extMain, extTryBody, extAsyncCmds, extRunCommand, argsIdx, Except.bind, Except.map, hasErrorKeyDeep, errD, PyVal.dictGet, hasErrorKeyDeepFields, h0, h1, h2]
      cases h3 : PyVal.dictGet args "vault"
      · simp [extMain, extTryBody, extAsyncCmds, extRunCommand, argsIdx, Except.bind, Except.map, hasErrorKeyDeep, errD, PyVal.dictGet, hasErrorKeyDeepFields, h0, h1, h2, h3]
      fin_cases hp <;> simp_all [extRequiredKeys]
    · -- get_public_key
      cases h0 : PyVal.dictGet args "private_key"
      · simp [extMain, extTryBody, extAsyncCmds, extRunCommand, argsIdx, Except.bind, Except.map, hasErrorKeyDeep, errD, PyVal.dictGet, hasErrorKeyDeepFields, h0]
      fin_cases hp <;> simp_all [extRequiredKeys]
  · intro st m cid env
    rfl
  · intro svc params cid env nc cmd hmem p hp hm
    fin_cases hmem
    · fin_cases hp  -- get_account_info: no required keys
    · fin_cases hp  -- get_markets
    · fin_cases hp  -- get_positions
    · -- place_order
      cases h0 : PyVal.dictGet params "market_name"
      · simp [grvtDispatch, hasErrorKey, errD, PyVal.dictGet, grvtPlaceOrder, h0]
      cases h1 : PyVal.dictGet params "amount"
      · simp [grvtDispatch, hasErrorKey, errD, PyVal.dictGet, grvtPlaceOrder, h0, h1]
      cases h2 : PyVal.dictGet params "side"
      · simp [grvtDispatch, hasErrorKey, errD, PyVal.dictGet, grvtPlaceOrder, h0, h1, h2]
      fin_cases hp <;> simp_all [grvtRequiredKeys]
    · fin_cases hp  -- cancel_order_by_external_id
    · fin_cases hp  -- cancel_all_orders
    · -- transfer
      cases t1 : (paramOr params "funding_address" svc.fundingAddress).truthy
      · simp [grvtDispatch, hasErrorKey, errD, PyVal.dictGet, grvtTransfer, t1]
      cases t2 : (paramOr params "funding_private_key" svc.fundingPrivateKey).truthy
      · simp [grvtDispatch, hasErrorKey, errD, PyVal.dictGet, grvtTransfer, t1, t2]
      cases t3 : (paramOr params "funding_api_key" svc.fundingApiKey).truthy
      · simp [grvtDispatch, hasErrorKey, errD, PyVal.dictGet, grvtTransfer, t1, t2, t3]
      cases hAm : PyVal.dictGet params "amount"
      · simp [grvtDispatch, hasErrorKey, errD, PyVal.dictGet, grvtTransfer, t1, t2, t3, hAm]
      fin_cases hp <;> simp_all [grvtRequiredKeys]
    · fin_cases hp  -- transfer_history
    · -- withdraw
      cases hAm : PyVal.dictGet params "amount"
      · simp [grvtDispatch, hasErrorKey, errD, PyVal.dictGet, grvtWithdraw, hAm]
      fin_cases hp <;> simp_all [grvtRequiredKeys]
    · fin_cases hp  -- get_order_history
    · -- vault_invest
      cases t1 : (paramOr params "funding_address" svc.fundingAddress).truthy
      · simp [grvtDispatch, hasErrorKey, errD, PyVal.dictGet, grvtVaultOp, t1]
      cases t2 : (paramOr params "funding_private_key" svc.fundingPrivateKey).truthy
      · simp [grvtDispatch, hasErrorKey, errD, PyVal.dictGet, grvtVaultOp, t1, t2]
      cases t3 : (paramOr params "funding_api_key" svc.fundingApiKey).truthy
      · simp [grvtDispatch, hasErrorKey, errD, PyVal.dictGet, grvtVaultOp, t1, t2, t3]
      cases hV : PyVal.dictGet params "vault_id"
      · simp [grvtDispatch, hasErrorKey, errD, PyVal.dictGet, grvtVaultOp, t1, t2, t3, hV]
      cases hA : PyVal.dictGet params "amount"
      · simp [grvtDispatch, hasErrorKey, errD, PyVal.dictGet, grvtVaultOp, t1, t2, t3, hV, hA]
      fin_cases hp <;> simp_all [grvtRequiredKeys]
    · -- vault_redeem
      cases t1 : (paramOr params "funding_address" svc.fundingAddress).truthy
      · simp [grvtDispatch, hasErrorKey, errD, PyVal.dictGet, grvtVaultOp, t1]
      cases t2 : (paramOr params "funding_private_key" svc.fundingPrivateKey).truthy
      · simp [grvtDispatch, hasErrorKey, errD, PyVal.dictGet, grvtVaultOp, t1, t2]
      cases t3 : (paramOr params "funding_api_key" svc.fundingApiKey).truthy
      · simp [grvtDispatch, hasErrorKey, errD, PyVal.dictGet, grvtVaultOp, t1, t2, t3]
      cases hV : PyVal.dictGet params "vault_id"
      · simp [grvtDispatch, hasErrorKey, errD, PyVal.dictGet, grvtVaultOp, t1, t2, t3, hV]
      cases hA : PyVal.dictGet params "amount"
      · simp [grvtDispatch, hasErrorKey, errD, PyVal.dictGet, grvtVaultOp, t1, t2, t3, hV, hA]
      fin_cases hp <;> simp_all [grvtRequiredKeys]

/-- C2 witness: a `place_order` request missing `amount` (Extended)
and a GRVT `withdraw` missing `amount` both yield error responses. -/
theorem C2_missing_param_yields_error_witness :
    hasErrorKeyDeep (extMain true true (some "place_order")
      (some (.ok (.pdict [("api_key", .pstr "k"), ("private_key", .pstr "p"),
        ("public_key", .pstr "q"), ("vault", .pint 1),
        ("market_name", .pstr "BTC-USD"), ("side", .pstr "BUY")]))) []).1 = true ∧
    hasErrorKey (grvtDispatch ⟨.pstr "7", .pstr "k", .pstr "a", .pnone, .pnone,
      .pnone, "testnet", 0⟩ "withdraw" [] 0 [] 1).resp = true :=
  ⟨C2_missing_param_yields_error.2.2.1 true true "place_order" (by decide)
      _ [] "amount" (by decide) rfl,
   C2_missing_param_yields_error.2.2.2.2 _ [] 0 [] 1 "withdraw" (by decide)
      "amount" (by decide) rfl⟩

/-- C3, counterexample: in the GRVT stdin-stream service the
unknown-command error is wrapped in a `data` envelope, and a command
name colliding with a non-method attribute (`config`) does not produce
the unknown-command message at all — `getattr(service, 'config')(params)`
raises `TypeError` instead.  Either emitted line differs from the bare
`{"error": "Unknown command: <name>"}` object the claim requires. -/
theorem C3_counterexample_grvt_unknown_shape :
    (grvtStep ⟨some ⟨.pstr "a", .pstr "b", .pstr "c", .pnone, .pnone, .pnone,
        "testnet", 0⟩, 1⟩
      (.ok (.pdict [("command", .pstr "config"), ("params", .pdict [])])) 0 []).line
      = errD "\x27dict\x27 object is not callable" ∧
    (grvtStep ⟨some ⟨.pstr "a", .pstr "b", .pstr "c", .pnone, .pnone, .pnone,
        "testnet", 0⟩, 1⟩
      (.ok (.pdict [("command", .pstr "config"), ("params", .pdict [])])) 0 []).line
      ≠ errD "Unknown command: config" ∧
    (grvtStep ⟨some ⟨.pstr "a", .pstr "b", .pstr "c", .pnone, .pnone, .pnone,
        "testnet", 0⟩, 1⟩
      (.ok (.pdict [("command", .pstr "frobnicate"), ("params", .pdict [])])) 0 []).line
      = .pdict [("data", errD "Unknown command: frobnicate")] ∧
    (grvtStep ⟨some ⟨.pstr "a", .pstr "b", .pstr "c", .pnone, .pnone, .pnone,
        "testnet", 0⟩, 1⟩
      (.ok (.pdict [("command", .pstr "frobnicate"), ("params", .pdict [])])) 0 []).line
      ≠ errD "Unknown command: frobnicate" := by
  refine ⟨rfl, ?_, rfl, ?_⟩ <;> simp [grvtStep, grvtStepWith, grvtCmds,
    grvtDataAttrs, grvtAttrVal, PyVal.typeName, PyVal.dictGet, errD]

/-- C3 (amended): the process-argument transport emits exactly
`{"error": "Unknown command: <name>"}` (with exit code 1) for every
unsupported name.  The stdin-stream transport emits the unknown-command
error only for names that are not attributes of the service object, and
wraps it as `{"data": {"error": "Unknown command: <name>"}}`; names
colliding with non-method attributes yield a different top-level error
from the failed call attempt. -/
theorem C3_amended_unknown_command :
    (∀ (name : String), name ∉ extSupportedCmds →
      ∀ (sdkA initOk : Bool) (argv2 : Option (Except String PyVal))
        (env : List ExtRes),
        extMain sdkA initOk (some name) argv2 env
          = (errD ("Unknown command: " ++ name), 1)) ∧
    (∀ (st : GrvtLoopSt) (svc : GrvtSvc) (name : String)
       (params : List (String × PyVal)) (cid : Nat) (env : List GrvtRes),
      name ∉ grvtCmds → name ≠ "_initialize" → name ∉ grvtDataAttrs →
      (grvtStepWith st svc (.pstr name) params cid env).line
        = .pdict [("data", errD ("Unknown command: " ++ name))]) := by
  constructor
  · intro name hname sdkA initOk argv2 env
    have h1 : name ∉ extAsyncCmds := fun h => hname (List.mem_append_left _ h)
    have h2 : name ≠ "get_public_key" := by
      intro h
      exact hname (by simp [extSupportedCmds, h])
    simp only [extMain]
    rw [if_neg (by simp [h1, h2])]
  · intro st svc name params cid env h1 h2 h3
    simp only [grvtStepWith]
    rw [if_neg h1, if_neg h2, if_neg h3]

/-- C3 witness: the amended theorem at the unsupported name
`frobnicate` in both transports. -/
theorem C3_amended_unknown_command_witness :
    extMain true true (some "frobnicate") none []
      = (errD ("Unknown command: " ++ "frobnicate"), 1) ∧
    (grvtStepWith ⟨some ⟨.pstr "a", .pstr "b", .pstr "c", .pnone, .pnone, .pnone,
        "testnet", 0⟩, 1⟩ ⟨.pstr "a", .pstr "b", .pstr "c", .pnone, .pnone, .pnone,
        "testnet", 0⟩ (.pstr "frobnicate") [] 0 []).line
      = .pdict [("data", errD ("Unknown command: " ++ "frobnicate"))] :=
  ⟨C3_amended_unknown_command.1 "frobnicate" (by decide) true true none [],
   C3_amended_unknown_command.2 _ _ "frobnicate" [] 0 [] (by decide) (by decide)
     (by decide)⟩

theorem jsonSerializable_errD (m : String) : jsonSerializable (errD m) = true := rfl

/-- The async commands whose handlers are guarded on SDK availability
(everything but the pure-echo `test_params`). -/
def extSdkGuardedCmds : List String :=
  ["get_markets", "get_account_info", "get_positions", "get_orders", "get_order_by_id",
   "place_order", "cancel_order", "cancel_order_by_external_id", "cancel_all_orders",
   "close_position", "get_orderbook", "get_trades", "withdraw", "get_bridge_config",
   "get_bridge_quote", "commit_bridge_quote"]

/-- C4, counterexample: with the SDK import failed, a fully-credentialed
`get_markets` run is not fatal — the process prints the error JSON and
exits with code `0`, while the claim requires a non-zero exit code. -/
theorem C4_counterexample_import_failure_not_fatal :
    extMain false true (some "get_markets")
      (some (.ok (.pdict [("api_key", .pstr "k"), ("private_key", .pstr "p"),
        ("public_key", .pstr "q"), ("vault", .pint 1)]))) []
    = (errD "X10 SDK not available - install x10-python-trading-starknet", 0) := rfl

/-- C4 (amended): in the one-shot transport, missing constructor
credentials are fatal — the error JSON is the single line of output and
the exit code is 1 — but an SDK import failure is not: every
SDK-guarded command then reports `{"error": ...}` on stdout and the
process exits with code 0 (the import warning goes to stderr only). -/
theorem C4_amended_startup_failures :
    (∀ (sdkA initOk : Bool) (cmd : String), cmd ∈ extAsyncCmds →
      ∀ (args : List (String × PyVal)) (env : List ExtRes) (p : String),
        p ∈ ["api_key", "private_key", "public_key", "vault"] →
        PyVal.dictGet args p = none →
        hasErrorKeyDeep (extMain sdkA initOk (some cmd)
          (some (.ok (.pdict args))) env).1 = true ∧
        (extMain sdkA initOk (some cmd) (some (.ok (.pdict args))) env).2 = 1) ∧
    (∀ (initOk : Bool) (cmd : String), cmd ∈ extSdkGuardedCmds →
      ∀ (args : List (String × PyVal)) (env : List ExtRes),
        (∀ q ∈ extRequiredKeys cmd, (PyVal.dictGet args q).isSome = true) →
        hasErrorKey (extMain false initOk (some cmd)
          (some (.ok (.pdict args))) env).1 = true ∧
        (extMain false initOk (some cmd) (some (.ok (.pdict args))) env).2 = 0) := by
  constructor
  · intro sdkA initOk cmd hmem args env p hp hm
    fin_cases hmem <;>
    cases h1 : PyVal.dictGet args "api_key" <;>
    cases h2 : PyVal.dictGet args "private_key" <;>
    cases h3 : PyVal.dictGet args "public_key" <;>
    cases h4 : PyVal.dictGet args "vault" <;>
    fin_cases hp <;>
      simp_all [extMain, extTryBody, extAsyncCmds, extRunCommand, argsIdx,
        Except.bind, Except.map, hasErrorKeyDeep, errD, PyVal.dictGet,
        hasErrorKeyDeepFields]
  · intro initOk cmd hmem args env hall
    have g1 := hall "api_key"
    have g2 := hall "private_key"
    have g3 := hall "public_key"
    have g4 := hall "vault"
    fin_cases hmem
    all_goals
      simp only [extRequiredKeys] at g1 g2 g3 g4 hall
    all_goals
      obtain ⟨v1, h1⟩ := Option.isSome_iff_exists.mp (g1 (by decide))
    all_goals
      obtain ⟨v2, h2⟩ := Option.isSome_iff_exists.mp (g2 (by decide))
    all_goals
      obtain ⟨v3, h3⟩ := Option.isSome_iff_exists.mp (g3 (by decide))
    all_goals
      obtain ⟨v4, h4⟩ := Option.isSome_iff_exists.mp (g4 (by decide))
    · -- get_markets
      simp [extMain, extTryBody, extAsyncCmds, extRunCommand, argsIdx,
        Except.bind, Except.map, h1, h2, h3, h4, extGetMarkets,
        jsonSerializable_errD, hasErrorKey, errD, PyVal.dictGet,
        jsonSerializable, jsonSerializableFields]
    · -- get_account_info
      simp [extMain, extTryBody, extAsyncCmds, extRunCommand, argsIdx,
        Except.bind, Except.map, h1, h2, h3, h4, extGetAccountInfo,
        hasErrorKey, errD, PyVal.dictGet, jsonSerializable, jsonSerializableFields]
    · -- get_positions
      simp [extMain, extTryBody, extAsyncCmds, extRunCommand, argsIdx,
        Except.bind, Except.map, h1, h2, h3, h4, extGetPositions,
        hasErrorKey, errD, PyVal.dictGet, jsonSerializable, jsonSerializableFields]
    · -- get_orders
      simp [extMain, extTryBody, extAsyncCmds, extRunCommand, argsIdx,
        Except.bind, Except.map, h1, h2, h3, h4, extGetOrders,
        hasErrorKey, errD, PyVal.dictGet, jsonSerializable, jsonSerializableFields]
    · -- get_order_by_id
      obtain ⟨v5, h5⟩ := Option.isSome_iff_exists.mp (hall "order_id" (by decide))
      simp [extMain, extTryBody, extAsyncCmds, extRunCommand, argsIdx,
        Except.bind, Except.map, h1, h2, h3, h4, h5, extGetOrderById,
        hasErrorKey, errD, PyVal.dictGet, jsonSerializable, jsonSerializableFields]
    · -- place_order
      obtain ⟨v5, h5⟩ := Option.isSome_iff_exists.mp (hall "market_name" (by decide))
      obtain ⟨v6, h6⟩ := Option.isSome_iff_exists.mp (hall "side" (by decide))
      obtain ⟨v7, h7⟩ := Option.isSome_iff_exists.mp (hall "amount" (by decide))
      obtain ⟨v8, h8⟩ := Option.isSome_iff_exists.mp (hall "price" (by decide))
      simp [extMain, extTryBody, extAsyncCmds, extRunCommand, argsIdx,
        Except.bind, Except.map, h1, h2, h3, h4, h5, h6, h7, h8, extPlaceOrder,
        hasErrorKey, errD, PyVal.dictGet, jsonSerializable, jsonSerializableFields]
    · -- cancel_order
      obtain ⟨v5, h5⟩ := Option.isSome_iff_exists.mp (hall "external_id" (by decide))
      simp [extMain, extTryBody, extAsyncCmds, extRunCommand, argsIdx,
        Except.bind, Except.map, h1, h2, h3, h4, h5, extCancelOrder,
        hasErrorKey, errD, PyVal.dictGet, jsonSerializable, jsonSerializableFields]
    · -- cancel_order_by_external_id
      obtain ⟨v5, h5⟩ := Option.isSome_iff_exists.mp (hall "external_id" (by decide))
      simp [extMain, extTryBody, extAsyncCmds, extRunCommand, argsIdx,
        Except.bind, Except.map, h1, h2, h3, h4, h5, extCancelOrderByExternalId,
        hasErrorKey, errD, PyVal.dictGet, jsonSerializable, jsonSerializableFields]
    · -- cancel_all_orders
      simp [extMain, extTryBody, extAsyncCmds, extRunCommand, argsIdx,
        Except.bind, Except.map, h1, h2, h3, h4, extCancelAllOrders,
        hasErrorKey, errD, PyVal.dictGet, jsonSerializable, jsonSerializableFields]
    · -- close_position
      obtain ⟨v5, h5⟩ := Option.isSome_iff_exists.mp (hall "market_name" (by decide))
      simp [extMain, extTryBody, extAsyncCmds, extRunCommand, argsIdx,
        Except.bind, Except.map, h1, h2, h3, h4, h5, extClosePosition,
        hasErrorKey, errD, PyVal.dictGet, jsonSerializable, jsonSerializableFields]
    · -- get_orderbook
      obtain ⟨v5, h5⟩ := Option.isSome_iff_exists.mp (hall "market_name" (by decide))
      simp [extMain, extTryBody, extAsyncCmds, extRunCommand, argsIdx,
        Except.bind, Except.map, h1, h2, h3, h4, h5, extGetOrderbook,
        hasErrorKey, errD, PyVal.dictGet, jsonSerializable, jsonSerializableFields]
    · -- get_trades
      obtain ⟨v5, h5⟩ := Option.isSome_iff_exists.mp (hall "market_name" (by decide))
      simp [extMain, extTryBody, extAsyncCmds, extRunCommand, argsIdx,
        Except.bind, Except.map, h1, h2, h3, h4, h5, extGetTrades,
        hasErrorKey, errD, PyVal.dictGet, jsonSerializable, jsonSerializableFields]
    · -- withdraw
      obtain ⟨v5, h5⟩ := Option.isSome_iff_exists.mp (hall "amount" (by decide))
      simp [extMain, extTryBody, extAsyncCmds, extRunCommand, argsIdx,
        Except.bind, Except.map, h1, h2, h3, h4, h5, extWithdraw,
        hasErrorKey, errD, PyVal.dictGet, jsonSerializable, jsonSerializableFields]
    · -- get_bridge_config
      simp [extMain, extTryBody, extAsyncCmds, extRunCommand, argsIdx,
        Except.bind, Except.map, h1, h2, h3, h4, extGetBridgeConfig,
        hasErrorKey, errD, PyVal.dictGet, jsonSerializable, jsonSerializableFields]
    · -- get_bridge_quote
      obtain ⟨v5, h5⟩ := Option.isSome_iff_exists.mp (hall "chain_in" (by decide))
      obtain ⟨v6, h6⟩ := Option.isSome_iff_exists.mp (hall "chain_out" (by decide))
      obtain ⟨v7, h7⟩ := Option.isSome_iff_exists.mp (hall "amount" (by decide))
      simp [extMain, extTryBody, extAsyncCmds, extRunCommand, argsIdx,
        Except.bind, Except.map, h1, h2, h3, h4, h5, h6, h7, extGetBridgeQuote,
        hasErrorKey, errD, PyVal.dictGet, jsonSerializable, jsonSerializableFields]
    · -- commit_bridge_quote
      obtain ⟨v5, h5⟩ := Option.isSome_iff_exists.mp (hall "quote_id" (by decide))
      simp [extMain, extTryBody, extAsyncCmds, extRunCommand, argsIdx,
        Except.bind, Except.map, h1, h2, h3, h4, h5, extCommitBridgeQuote,
        hasErrorKey, errD, PyVal.dictGet, jsonSerializable, jsonSerializableFields]

/-- C4 witness: missing `api_key` is fatal (exit 1); with the SDK
having failed to import, credentialed `get_markets` reports the error
and exits 0. -/
theorem C4_amended_startup_failures_witness :
    (hasErrorKeyDeep (extMain true true (some "get_markets")
        (some (.ok (.pdict []))) []).1 = true ∧
      (extMain true true (some "get_markets") (some (.ok (.pdict []))) []).2 = 1) ∧
    (hasErrorKey (extMain false true (some "get_markets")
        (some (.ok (.pdict [("api_key", .pstr "k"), ("private_key", .pstr "p"),
          ("public_key", .pstr "q"), ("vault", .pint 1)]))) []).1 = true ∧
      (extMain false true (some "get_markets")
        (some (.ok (.pdict [("api_key", .pstr "k"), ("private_key", .pstr "p"),
          ("public_key", .pstr "q"), ("vault", .pint 1)]))) []).2 = 0) :=
  ⟨C4_amended_startup_failures.1 true true "get_markets" (by decide) [] []
      "api_key" (by decide) rfl,
   C4_amended_startup_failures.2 true "get_markets" (by decide) _ []
      (by intro q hq; fin_cases hq <;> decide)⟩

/-- Every listed field of the dict is present with a string value. -/
def fieldsAreStrings (v : PyVal) (ks : List String) : Bool :=
  ks.all fun k =>
    match dGet v k with
    | some (.pstr _) => true
    | _ => false

/-- C5: decimal-valued numeric fields are emitted as strings, never as
floating-point JSON numbers.  In the Extended service
`_serialize_object` turns every `Decimal` into its string, its output
is always JSON-serializable, and it introduces no float that was not
already in the SDK payload.  In the GRVT service the numeric fields of
`get_account_info`, `get_positions` and `get_markets` responses are all
built with `str(...)` and are string-valued. -/
theorem C5_decimals_serialized_as_strings :
    (∀ r : String, serializeObject (.pdecimal r) = .pstr r) ∧
    (∀ v : PyVal, jsonSerializable (serializeObject v) = true) ∧
    (∀ v : PyVal, floatFree v = true → floatFree (serializeObject v) = true) ∧
    (∀ (svc : GrvtSvc) (env : List GrvtRes) (nc : Nat) (v : PyVal),
      callGrvt env 0 = .ok v →
      fieldsAreStrings (grvtGetAccountInfo svc env nc).resp
        ["available_for_trade", "available_for_withdrawal", "unrealised_pnl",
         "realised_pnl", "total_balance"] = true) ∧
    (∀ (pos out : PyVal), grvtShapePosition pos = .ok out →
      fieldsAreStrings out
        ["side", "size", "open_price", "entry_price", "mark_price",
         "liquidation_price", "unrealised_pnl", "realised_pnl", "value"] = true) ∧
    (∀ inst : PyVal,
      ∃ ms tc, dGet (grvtShapeMarket inst) "market_stats" = some ms ∧
        fieldsAreStrings ms
          ["ask_price", "bid_price", "funding_rate", "open_interest"] = true ∧
        dGet (grvtShapeMarket inst) "trading_config" = some tc ∧
        fieldsAreStrings tc
          ["min_order_size", "min_order_size_change", "min_price_change",
           "max_market_order_value", "max_limit_order_value"] = true) := by
  refine ⟨fun r => rfl, serializeObject_serializable, serializeObject_floatFree,
    ?_, ?_, ?_⟩
  · intro svc env nc v hc
    simp only [grvtGetAccountInfo, hc]
    rfl
  · intro pos out h
    unfold grvtShapePosition at h
    cases hs : pyFloatParse (pos.attrD "size" (.pint 0)) with
    | error m => rw [hs] at h; cases h
    | ok sz =>
      cases hm : pyFloatParse (pos.attrD "mark_price" (.pint 0)) with
      | error m => rw [hs, hm] at h; cases h
      | ok mp =>
        rw [hs, hm] at h
        cases h
        rfl
  · intro inst
    exact ⟨_, _, rfl, rfl, rfl, rfl⟩

/-- C5 witness: a payload of nested Decimals serializes to strings and
stays float-free; concrete GRVT responses have string numeric fields. -/
theorem C5_decimals_serialized_as_strings_witness :
    floatFree (serializeObject (.pobj [("price", .pdecimal "1.50"),
      ("legs", .plist [.pdecimal "0.25"])])) = true ∧
    fieldsAreStrings (grvtGetAccountInfo ⟨.pstr "7", .pstr "k", .pstr "a", .pnone,
      .pnone, .pnone, "testnet", 0⟩ [.ok (.pobj [("total_balance", .pdecimal "9.5")])]
      1).resp
      ["available_for_trade", "available_for_withdrawal", "unrealised_pnl",
       "realised_pnl", "total_balance"] = true ∧
    fieldsAreStrings ((grvtShapePosition (.pobj [("size", .pint 3),
        ("mark_price", .pint 2)])).toOption.getD .pnone)
      ["side", "size", "open_price", "entry_price", "mark_price",
       "liquidation_price", "unrealised_pnl", "realised_pnl", "value"] = true :=
  ⟨C5_decimals_serialized_as_strings.2.2.1 _ rfl,
   C5_decimals_serialized_as_strings.2.2.2.1 _ _ 1 _ rfl,
   C5_decimals_serialized_as_strings.2.2.2.2.1
     (.pobj [("size", .pint 3), ("mark_price", .pint 2)]) _ rfl⟩


theorem emitResult_service (st : GrvtLoopSt) (D : GrvtHRes) :
    ((if jsonSerializable D.resp then
        (⟨.pdict [("data", D.resp)], { st with nextClient := D.nextClient },
          D.clients⟩ : GrvtStepRes)
      else ⟨errD "Object is not JSON serializable",
        { st with nextClient := D.nextClient }, D.clients⟩)).state.service
      = st.service := by
  split <;> rfl

theorem grvtStepWith_service (st : GrvtLoopSt) (svc : GrvtSvc) (command : PyVal)
    (params : List (String × PyVal)) (cid : Nat) (env : List GrvtRes) :
    (grvtStepWith st svc command params cid env).state.service = st.service := by
  unfold grvtStepWith
  repeat' split
  all_goals first
  | rfl
  | exact emitResult_service st _

/-- The GRVT handlers that build a fresh `GrvtRawSync` per request. -/
def grvtFundingCmds : List String := ["transfer", "vault_invest", "vault_redeem"]

theorem grvtGetAccountInfo_clients (svc : GrvtSvc) (env : List GrvtRes) (nc : Nat) :
    ∀ x ∈ (grvtGetAccountInfo svc env nc).clients, x = svc.client := by
  unfold grvtGetAccountInfo
  cases hc : callGrvt env 0 <;> simp

theorem grvtGetMarkets_clients (svc : GrvtSvc) (env : List GrvtRes) (nc : Nat) :
    ∀ x ∈ (grvtGetMarkets svc env nc).clients, x = svc.client := by
  unfold grvtGetMarkets
  cases hc : callGrvt env 0 <;> try simp
  rename_i v
  cases v <;> simp

theorem grvtGetPositions_clients (svc : GrvtSvc) (env : List GrvtRes) (nc : Nat) :
    ∀ x ∈ (grvtGetPositions svc env nc).clients, x = svc.client := by
  unfold grvtGetPositions
  cases hc : callGrvt env 0 <;> try simp
  rename_i v
  cases v <;> try simp
  rename_i ps
  cases hs : grvtShapePositions ps <;> simp

theorem grvtPlaceOrder_clients (svc : GrvtSvc) (cid : Nat)
    (params : List (String × PyVal)) (env : List GrvtRes) (nc : Nat) :
    ∀ x ∈ (grvtPlaceOrder svc cid params env nc).clients, x = svc.client := by
  unfold grvtPlaceOrder
  cases h0 : PyVal.dictGet params "market_name"
  · simp
  cases h1 : PyVal.dictGet params "amount"
  · simp
  cases h2 : PyVal.dictGet params "side"
  · simp
  cases hc0 : callGrvt env 0 <;> try simp
  rename_i v
  cases v <;> try simp
  cases hc1 : callGrvt env 1 <;> simp

theorem grvtCancelOrderByExternalId_clients (svc : GrvtSvc)
    (params : List (String × PyVal)) (env : List GrvtRes) (nc : Nat) :
    ∀ x ∈ (grvtCancelOrderByExternalId svc params env nc).clients, x = svc.client := by
  unfold grvtCancelOrderByExternalId
  cases hc : callGrvt env 0 <;> simp

theorem grvtCancelAllOrders_clients (svc : GrvtSvc) (env : List GrvtRes) (nc : Nat) :
    ∀ x ∈ (grvtCancelAllOrders svc env nc).clients, x = svc.client := by
  unfold grvtCancelAllOrders
  cases hc : callGrvt env 0 <;> simp

theorem grvtTransferHistory_clients (svc : GrvtSvc) (env : List GrvtRes) (nc : Nat) :
    ∀ x ∈ (grvtTransferHistory svc env nc).clients, x = svc.client := by
  unfold grvtTransferHistory
  cases hc : callGrvt env 0 <;> try simp
  rename_i v
  cases v <;> simp

theorem grvtWithdraw_clients (svc : GrvtSvc) (params : List (String × PyVal))
    (env : List GrvtRes) (nc : Nat) :
    ∀ x ∈ (grvtWithdraw svc params env nc).clients, x = svc.client := by
  unfold grvtWithdraw
  cases hAm : PyVal.dictGet params "amount"
  · simp
  cases hc : callGrvt env 0 <;> simp

theorem grvtGetOrderHistory_clients (svc : GrvtSvc) (env : List GrvtRes) (nc : Nat) :
    ∀ x ∈ (grvtGetOrderHistory svc env nc).clients, x = svc.client := by
  unfold grvtGetOrderHistory
  cases hc : callGrvt env 0 <;> simp

theorem grvtTransfer_fresh (svc : GrvtSvc) (params : List (String × PyVal))
    (env : List GrvtRes) (nc : Nat) :
    (∀ x ∈ (grvtTransfer svc params env nc).clients, x = nc) ∧
    (grvtTransfer svc params env nc).nextClient ≤ nc + 1 := by
  unfold grvtTransfer
  cases t1 : (paramOr params "funding_address" svc.fundingAddress).truthy
  · simp [t1]
  cases t2 : (paramOr params "funding_private_key" svc.fundingPrivateKey).truthy
  · simp [t1, t2]
  cases t3 : (paramOr params "funding_api_key" svc.fundingApiKey).truthy
  · simp [t1, t2, t3]
  cases hAm : PyVal.dictGet params "amount"
  · simp [t1, t2, t3, hAm]
  cases hc : callGrvt env 0 <;> simp [t1, t2, t3, hAm, hc]

theorem grvtVaultOp_fresh (svc : GrvtSvc) (params : List (String × PyVal))
    (env : List GrvtRes) (nc : Nat) :
    (∀ x ∈ (grvtVaultOp svc params env nc).clients, x = nc) ∧
    (grvtVaultOp svc params env nc).nextClient ≤ nc + 1 := by
  unfold grvtVaultOp
  cases t1 : (paramOr params "funding_address" svc.fundingAddress).truthy
  · simp [t1]
  cases t2 : (paramOr params "funding_private_key" svc.fundingPrivateKey).truthy
  · simp [t1, t2]
  cases t3 : (paramOr params "funding_api_key" svc.fundingApiKey).truthy
  · simp [t1, t2, t3]
  cases hV : PyVal.dictGet params "vault_id"
  · simp [t1, t2, t3, hV]
  rename_i vid
  cases hA : PyVal.dictGet params "amount"
  · simp [t1, t2, t3, hV, hA]
  rename_i amt
  cases hIk : pyIntOk vid
  · simp [t1, t2, t3, hV, hA, hIk]
  cases hFp : pyFloatParse (.pstr amt.pyStr)
  · simp [t1, t2, t3, hV, hA, hIk, hFp]
  cases hc : callGrvt env 0 <;> simp [t1, t2, t3, hV, hA, hIk, hFp, hc]

/-- C6, counterexample: a `get_markets` request served by the
lazily-initialized client (id 0) followed by a `transfer` request whose
SDK call goes to a freshly created client (id 1 ≠ 0) — the same client
instance is not reused for every SDK call. -/
theorem C6_counterexample_transfer_fresh_client :
    (grvtLoop ⟨none, 0⟩
      [⟨.ok (.pdict [("command", .pstr "get_markets"),
          ("params", .pdict [("account_id", .pstr "7"), ("private_key", .pstr "k"),
            ("api_key", .pstr "a")])]), 0, [.ok (.plist [])]⟩,
       ⟨.ok (.pdict [("command", .pstr "transfer"),
          ("params", .pdict [("funding_address", .pstr "0xF"),
            ("funding_private_key", .pstr "fk"), ("funding_api_key", .pstr "fa"),
            ("amount", .pstr "5")])]), 0, [.ok (.pobj [])]⟩]).1.map Prod.snd
      = [[0], [1]] ∧
    (grvtLoop ⟨none, 0⟩
      [⟨.ok (.pdict [("command", .pstr "get_markets"),
          ("params", .pdict [("account_id", .pstr "7"), ("private_key", .pstr "k"),
            ("api_key", .pstr "a")])]), 0, [.ok (.plist [])]⟩,
       ⟨.ok (.pdict [("command", .pstr "transfer"),
          ("params", .pdict [("funding_address", .pstr "0xF"),
            ("funding_private_key", .pstr "fk"), ("funding_api_key", .pstr "fa"),
            ("amount", .pstr "5")])]), 0, [.ok (.pobj [])]⟩]).2.service
      = some ⟨.pstr "7", .pstr "k", .pstr "a", .pnone, .pnone, .pnone, "testnet", 0⟩ ∧
    (1 : Nat) ≠ 0 :=
  ⟨rfl, rfl, by decide⟩

/-- C6 (amended): the service object (holding the startup client) is
created on the first request and never replaced afterwards; every SDK
call of a non-funding command uses that stored client; the funding
commands (`transfer`, `vault_invest`, `vault_redeem`) instead create at
most one fresh client per request, use only it, and do not store it. -/
theorem C6_amended_lazy_client_reuse :
    (∀ (st : GrvtLoopSt) (svc : GrvtSvc) (line : Except String PyVal)
       (cid : Nat) (env : List GrvtRes), st.service = some svc →
       (grvtStep st line cid env).state.service = some svc) ∧
    (∀ (st : GrvtLoopSt) (cmdv : PyVal) (params : List (String × PyVal))
       (cid : Nat) (env : List GrvtRes) (svc : GrvtSvc), st.service = none →
       grvtInit params st.nextClient = .ok svc →
       (grvtStep st (.ok (.pdict [("command", cmdv), ("params", .pdict params)]))
         cid env).state.service = some svc) ∧
    (∀ (svc : GrvtSvc) (cmd : String) (params : List (String × PyVal))
       (cid : Nat) (env : List GrvtRes) (nc : Nat),
       cmd ∈ grvtCmds → cmd ∉ grvtFundingCmds →
       ∀ c ∈ (grvtDispatch svc cmd params cid env nc).clients, c = svc.client) ∧
    (∀ (svc : GrvtSvc) (cmd : String) (params : List (String × PyVal))
       (cid : Nat) (env : List GrvtRes) (nc : Nat), cmd ∈ grvtFundingCmds →
       (∀ c ∈ (grvtDispatch svc cmd params cid env nc).clients, c = nc) ∧
       (grvtDispatch svc cmd params cid env nc).nextClient ≤ nc + 1) := by
  refine ⟨?_, ?_, ?_, ?_⟩
  · intro st svc line cid env h
    obtain ⟨so, ncl⟩ := st
    obtain rfl : so = some svc := h
    cases line with
    | error m => rfl
    | ok req =>
      cases req <;> try rfl
      case pdict rfs =>
        simp only [grvtStep]
        split
        · rw [grvtStepWith_service]
        · rfl
  · intro st cmdv params cid env svc h0 hinit
    simp [grvtStep, PyVal.dictGet, h0, hinit, grvtStepWith_service]
  · intro svc cmd params cid env nc hmem hnot
    fin_cases hmem
    · exact grvtGetAccountInfo_clients svc env nc
    · exact grvtGetMarkets_clients svc env nc
    · exact grvtGetPositions_clients svc env nc
    · exact grvtPlaceOrder_clients svc cid params env nc
    · exact grvtCancelOrderByExternalId_clients svc params env nc
    · exact grvtCancelAllOrders_clients svc env nc
    · exact absurd (by decide : "transfer" ∈ grvtFundingCmds) hnot
    · exact grvtTransferHistory_clients svc env nc
    · exact grvtWithdraw_clients svc params env nc
    · exact grvtGetOrderHistory_clients svc env nc
    · exact absurd (by decide : "vault_invest" ∈ grvtFundingCmds) hnot
    · exact absurd (by decide : "vault_redeem" ∈ grvtFundingCmds) hnot
  · intro svc cmd params cid env nc hmem
    fin_cases hmem
    · exact grvtTransfer_fresh svc params env nc
    · exact grvtVaultOp_fresh svc params env nc
    · exact grvtVaultOp_fresh svc params env nc

/-- C6 witness: the amended theorem at a concrete initialized state,
a `get_markets` dispatch and a `transfer` dispatch. -/
theorem C6_amended_lazy_client_reuse_witness :
    (grvtStep ⟨some ⟨.pstr "7", .pstr "k", .pstr "a", .pnone, .pnone, .pnone,
        "testnet", 0⟩, 1⟩ (.ok (.pdict [("command", .pstr "get_markets"),
        ("params", .pdict [])])) 0 [.ok (.plist [])]).state.service
      = some ⟨.pstr "7", .pstr "k", .pstr "a", .pnone, .pnone, .pnone,
        "testnet", 0⟩ ∧
    (∀ c ∈ (grvtDispatch ⟨.pstr "7", .pstr "k", .pstr "a", .pnone, .pnone, .pnone,
        "testnet", 0⟩ "get_markets" [] 0 [.ok (.plist [])] 1).clients, c = 0) ∧
    (∀ c ∈ (grvtDispatch ⟨.pstr "7", .pstr "k", .pstr "a", .pnone, .pnone, .pnone,
        "testnet", 0⟩ "transfer"
        [("funding_address", .pstr "0xF"), ("funding_private_key", .pstr "fk"),
         ("funding_api_key", .pstr "fa"), ("amount", .pstr "5")]
        0 [.ok (.pobj [])] 1).clients, c = 1) :=
  ⟨C6_amended_lazy_client_reuse.1 _ _ _ 0 _ rfl,
   C6_amended_lazy_client_reuse.2.2.1 _ "get_markets" [] 0 _ 1 (by decide)
     (by decide),
   (C6_amended_lazy_client_reuse.2.2.2 _ "transfer" _ 0 _ 1 (by decide)).1⟩

/-- C7, counterexample: an `api_key` that is present but empty is not
replaced by the mask — `args.get("api_key")` is falsy, so the echoed
field is `None`, contradicting "replaced by the mask whenever present". -/
theorem C7_counterexample_empty_secret_unmasked :
    PyVal.dictGet [("api_key", PyVal.pstr "")] "api_key" = some (.pstr "") ∧
    (∃ r, testParams (.pdict [("api_key", .pstr "")]) true true = .ok r ∧
      dGet ((dGet r "received_params").getD .pnone) "api_key" = some .pnone) ∧
    (PyVal.pnone ≠ PyVal.pstr "***MASKED***") :=
  ⟨rfl, ⟨_, rfl, rfl⟩, by simp⟩

/-- C7 (amended): `test_params` returns its fixed field set with the
secret fields replaced by `***MASKED***` exactly when their supplied
value is truthy (and `None` otherwise — in particular an empty-string
secret is echoed as `None`, not masked), the non-secret fields echoed
verbatim, and the key list echoed; the response is a function of the
key list, the non-secret values and the truthiness of the secrets only,
so the secret values themselves never appear in it. -/
theorem C7_amended_test_params_masking :
    (∀ (fs : List (String × PyVal)) (sa co : Bool),
      ∃ r, testParams (.pdict fs) sa co = .ok r ∧
        dGet ((dGet r "received_params").getD .pnone) "api_key"
          = some (if (argGetN fs "api_key").truthy then .pstr "***MASKED***"
            else .pnone) ∧
        dGet ((dGet r "received_params").getD .pnone) "private_key"
          = some (if (argGetN fs "private_key").truthy then .pstr "***MASKED***"
            else .pnone) ∧
        dGet ((dGet r "received_params").getD .pnone) "public_key"
          = some (argGetN fs "public_key") ∧
        dGet ((dGet r "received_params").getD .pnone) "test_param"
          = some (argGetN fs "test_param") ∧
        dGet ((dGet r "received_params").getD .pnone) "all_args_keys"
          = some (.plist ((fs.map Prod.fst).map PyVal.pstr))) ∧
    (∀ (fs1 fs2 : List (String × PyVal)) (sa co : Bool),
      fs1.map Prod.fst = fs2.map Prod.fst →
      (∀ k ∈ ["public_key", "vault", "environment", "test_param", "timestamp"],
        PyVal.dictGet fs1 k = PyVal.dictGet fs2 k) →
      (argGetN fs1 "api_key").truthy = (argGetN fs2 "api_key").truthy →
      (argGetN fs1 "private_key").truthy = (argGetN fs2 "private_key").truthy →
      testParams (.pdict fs1) sa co = testParams (.pdict fs2) sa co) := by
  constructor
  · intro fs sa co
    refine ⟨_, rfl, ?_, ?_, rfl, rfl, ?_⟩
    · cases h : (argGetN fs "api_key").truthy <;> simp [testParams, dGet, h, PyVal.dictGet]
    · cases h : (argGetN fs "private_key").truthy <;>
        simp [testParams, dGet, h, PyVal.dictGet]
    · simp [testParams, dGet, PyVal.dictGet, List.map_map]
  · intro fs1 fs2 sa co hkeys hpub hak hpk
    have e1 := hpub "public_key" (by decide)
    have e2 := hpub "vault" (by decide)
    have e3 := hpub "environment" (by decide)
    have e4 := hpub "test_param" (by decide)
    have e5 := hpub "timestamp" (by decide)
    have ekeys : (fs1.map fun kv => PyVal.pstr kv.1)
        = (fs2.map fun kv => PyVal.pstr kv.1) := by
      have m1 : (fs1.map fun kv => PyVal.pstr kv.1)
          = (fs1.map Prod.fst).map PyVal.pstr := by
        rw [List.map_map]; rfl
      have m2 : (fs2.map fun kv => PyVal.pstr kv.1)
          = (fs2.map Prod.fst).map PyVal.pstr := by
        rw [List.map_map]; rfl
      rw [m1, m2, hkeys]
    simp only [argGetN] at hak hpk
    simp [testParams, argGetN, e1, e2, e3, e4, e5, ekeys, hak, hpk]

/-- C7 witness: the amended theorem applied to a concrete argument dict
with a truthy secret, and noninterference between two dicts differing
only in the secret values. -/
theorem C7_amended_test_params_masking_witness :
    (∃ r, testParams (.pdict [("api_key", .pstr "sec"), ("test_param", .pint 5)])
        true true = .ok r ∧
      dGet ((dGet r "received_params").getD .pnone) "api_key"
        = some (if (argGetN [("api_key", .pstr "sec"), ("test_param", .pint 5)]
            "api_key").truthy then .pstr "***MASKED***" else .pnone) ∧
      dGet ((dGet r "received_params").getD .pnone) "private_key"
        = some (if (argGetN [("api_key", .pstr "sec"), ("test_param", .pint 5)]
            "private_key").truthy then .pstr "***MASKED***" else .pnone) ∧
      dGet ((dGet r "received_params").getD .pnone) "public_key"
        = some (argGetN [("api_key", .pstr "sec"), ("test_param", .pint 5)]
            "public_key") ∧
      dGet ((dGet r "received_params").getD .pnone) "test_param"
        = some (argGetN [("api_key", .pstr "sec"), ("test_param", .pint 5)]
            "test_param") ∧
      dGet ((dGet r "received_params").getD .pnone) "all_args_keys"
        = some (.plist ((([("api_key", PyVal.pstr "sec"),
            ("test_param", PyVal.pint 5)].map Prod.fst)).map PyVal.pstr))) ∧
    testParams (.pdict [("api_key", .pstr "secret-one")]) true true
      = testParams (.pdict [("api_key", .pstr "secret-two")]) true true :=
  ⟨C7_amended_test_params_masking.1 _ true true,
   C7_amended_test_params_masking.2 _ _ true true rfl
     (by intro k hk; fin_cases hk <;> rfl) rfl rfl⟩

/-- C8: in the GRVT `place_order` success response `external_id` and
`order_id` are the same value, `client_order_id` always holds the
generated id, `grvt_order_id` echoes the SDK id, and the shared value
is the generated id exactly on an absent/empty/`0x00` SDK id and the
SDK id otherwise. -/
theorem C8_place_order_id_fields (svc : GrvtSvc) (cid : Nat)
    (params : List (String × PyVal)) (env : List GrvtRes) (nc : Nat)
    (result : PyVal) (insts : List PyVal)
    (hm : (PyVal.dictGet params "market_name").isSome = true)
    (ha : (PyVal.dictGet params "amount").isSome = true)
    (hs : (PyVal.dictGet params "side").isSome = true)
    (h0 : callGrvt env 0 = .ok (.plist insts))
    (h1 : callGrvt env 1 = .ok result) :
    dGet (grvtPlaceOrder svc cid params env nc).resp "external_id"
      = dGet (grvtPlaceOrder svc cid params env nc).resp "order_id" ∧
    dGet (grvtPlaceOrder svc cid params env nc).resp "client_order_id"
      = some (.pstr (toString cid)) ∧
    dGet (grvtPlaceOrder svc cid params env nc).resp "grvt_order_id"
      = some ((result.attrGet "order_id").getD .pnone) ∧
    (((result.attrGet "order_id").getD .pnone = .pnone ∨
      (result.attrGet "order_id").getD .pnone = .pstr "" ∨
      (result.attrGet "order_id").getD .pnone = .pstr "0x00") →
      dGet (grvtPlaceOrder svc cid params env nc).resp "external_id"
        = some (.pstr (toString cid))) ∧
    (∀ s : String, (result.attrGet "order_id").getD .pnone = .pstr s →
      s ≠ "" → s ≠ "0x00" →
      dGet (grvtPlaceOrder svc cid params env nc).resp "external_id"
        = some (.pstr s)) := by
  obtain ⟨mv, hmv⟩ := Option.isSome_iff_exists.mp hm
  obtain ⟨av, hav⟩ := Option.isSome_iff_exists.mp ha
  obtain ⟨sv, hsv⟩ := Option.isSome_iff_exists.mp hs
  refine ⟨?_, ?_, ?_, ?_, ?_⟩
  · simp [grvtPlaceOrder, hmv, hav, hsv, h0, h1, dGet, PyVal.dictGet]
  · simp [grvtPlaceOrder, hmv, hav, hsv, h0, h1, dGet, PyVal.dictGet]
  · simp [grvtPlaceOrder, hmv, hav, hsv, h0, h1, dGet, PyVal.dictGet]
  · intro hcase
    rcases hcase with h | h | h <;>
      simp [grvtPlaceOrder, hmv, hav, hsv, h0, h1, h, dGet, PyVal.dictGet,
        PyVal.truthy, pyEqB]
  · intro s hseq hne1 hne2
    simp [grvtPlaceOrder, hmv, hav, hsv, h0, h1, hseq, dGet, PyVal.dictGet,
      PyVal.truthy, pyEqB, hne1, hne2]

/-- C8 witness: concrete successful placements with an SDK id `0x00`
(falls back to the generated id) and a real SDK id. -/
theorem C8_place_order_id_fields_witness :
    dGet (grvtPlaceOrder ⟨.pstr "7", .pstr "k", .pstr "a", .pnone, .pnone, .pnone,
        "testnet", 0⟩ 42
        [("market_name", .pstr "BTC"), ("amount", .pstr "1"), ("side", .pstr "BUY")]
        [.ok (.plist []), .ok (.pobj [("order_id", .pstr "0x00")])] 1).resp
      "external_id"
      = some (.pstr (toString 42)) ∧
    dGet (grvtPlaceOrder ⟨.pstr "7", .pstr "k", .pstr "a", .pnone, .pnone, .pnone,
        "testnet", 0⟩ 42
        [("market_name", .pstr "BTC"), ("amount", .pstr "1"), ("side", .pstr "BUY")]
        [.ok (.plist []), .ok (.pobj [("order_id", .pstr "0xbeef")])] 1).resp
      "external_id"
      = some (.pstr "0xbeef") :=
  ⟨(C8_place_order_id_fields
      ⟨.pstr "7", .pstr "k", .pstr "a", .pnone, .pnone, .pnone, "testnet", 0⟩ 42
      [("market_name", .pstr "BTC"), ("amount", .pstr "1"), ("side", .pstr "BUY")]
      [.ok (.plist []), .ok (.pobj [("order_id", .pstr "0x00")])] 1
      (.pobj [("order_id", .pstr "0x00")]) []
      rfl rfl rfl rfl rfl).2.2.2.1 (by simp [PyVal.attrGet, PyVal.dictGet]),
   (C8_place_order_id_fields
      ⟨.pstr "7", .pstr "k", .pstr "a", .pnone, .pnone, .pnone, "testnet", 0⟩ 42
      [("market_name", .pstr "BTC"), ("amount", .pstr "1"), ("side", .pstr "BUY")]
      [.ok (.plist []), .ok (.pobj [("order_id", .pstr "0xbeef")])] 1
      (.pobj [("order_id", .pstr "0xbeef")]) []
      rfl rfl rfl rfl rfl).2.2.2.2 "0xbeef" rfl (by decide) (by decide)⟩

/-- C9: `cancel_order_by_external_id` routes an integer-parsing
external id into the `client_order_id` field of the cancel request and
any other id into the `order_id` field (both stringified), and any
non-error SDK response yields exactly `{"success": True}`. -/
theorem C9_cancel_routing (svc : GrvtSvc) (v : PyVal) :
    (pyIntOk v = true →
      grvtBuildCancelReq svc v = ⟨svc.accountId, none, some v.pyStr⟩) ∧
    (pyIntOk v = false →
      grvtBuildCancelReq svc v = ⟨svc.accountId, some v.pyStr, none⟩) ∧
    (∀ (params : List (String × PyVal)) (env : List GrvtRes) (nc : Nat)
       (rv : PyVal),
      PyVal.dictGet params "external_id" = some v →
      callGrvt env 0 = .ok rv →
      (grvtCancelOrderByExternalId svc params env nc).resp
        = .pdict [("success", .pbool true)]) := by
  refine ⟨?_, ?_, ?_⟩
  · intro h
    simp [grvtBuildCancelReq, h]
  · intro h
    simp [grvtBuildCancelReq, h]
  · intro params env nc rv hext hc
    simp [grvtCancelOrderByExternalId, hext, hc]

/-- C9 witness: a numeric id routes to `client_order_id`, a hex id to
`order_id`, and a succeeding cancel yields `{"success": True}`. -/
theorem C9_cancel_routing_witness :
    grvtBuildCancelReq ⟨.pstr "7", .pstr "k", .pstr "a", .pnone, .pnone, .pnone,
        "testnet", 0⟩ (.pstr "12345")
      = ⟨.pstr "7", none, some "12345"⟩ ∧
    grvtBuildCancelReq ⟨.pstr "7", .pstr "k", .pstr "a", .pnone, .pnone, .pnone,
        "testnet", 0⟩ (.pstr "0xdead")
      = ⟨.pstr "7", some "0xdead", none⟩ ∧
    (grvtCancelOrderByExternalId ⟨.pstr "7", .pstr "k", .pstr "a", .pnone, .pnone,
        .pnone, "testnet", 0⟩ [("external_id", .pstr "12345")]
        [.ok (.pobj [])] 1).resp
      = .pdict [("success", .pbool true)] :=
  ⟨(C9_cancel_routing _ (.pstr "12345")).1 rfl,
   (C9_cancel_routing _ (.pstr "0xdead")).2.1 rfl,
   (C9_cancel_routing _ (.pstr "12345")).2.2 _ _ 1 (.pobj []) rfl rfl⟩

/-- C10: every position shaped by GRVT `get_positions` reports side
`long` exactly when the parsed size is strictly positive and `short`
otherwise (a zero size is `short`), and its `value` field is
`str(abs(size * mark_price))`; the handler maps each SDK position
through this shaping. -/
theorem C10_positions_side_value (pos : PyVal) (sz mp : ℚ)
    (hs : pyFloatParse (pos.attrD "size" (.pint 0)) = .ok sz)
    (hm : pyFloatParse (pos.attrD "mark_price" (.pint 0)) = .ok mp) :
    ∃ out, grvtShapePosition pos = .ok out ∧
      dGet out "side" = some (.pstr (if 0 < sz then "long" else "short")) ∧
      (sz = 0 → dGet out "side" = some (.pstr "short")) ∧
      dGet out "value" = some (.pstr (PyVal.decStr |sz * mp|)) ∧
      ∀ (svc : GrvtSvc) (env : List GrvtRes) (nc : Nat),
        callGrvt env 0 = .ok (.plist [pos]) →
        (grvtGetPositions svc env nc).resp = .plist [out] := by
  have hout : grvtShapePosition pos
      = .ok (.pdict [
        ("market", pos.attrD "instrument" (.pstr "")),
        ("instrument", pos.attrD "instrument" (.pstr "")),
        ("side", .pstr (if 0 < sz then "long" else "short")),
        ("size", .pstr (PyVal.decStr sz)),
        ("open_price", .pstr (pos.attrD "entry_price" (.pint 0)).pyStr),
        ("entry_price", .pstr (pos.attrD "entry_price" (.pint 0)).pyStr),
        ("mark_price", .pstr (PyVal.decStr mp)),
        ("liquidation_price", .pstr (pos.attrD "liquidation_price" (.pint 0)).pyStr),
        ("unrealised_pnl", .pstr (pos.attrD "unrealised_pnl" (.pint 0)).pyStr),
        ("realised_pnl", .pstr (pos.attrD "realised_pnl" (.pint 0)).pyStr),
        ("value", .pstr (PyVal.decStr |sz * mp|)),
        ("last_order_id", pos.attrD "last_order_id" (.pstr "")),
        ("last_order_status", pos.attrD "last_order_status" (.pstr ""))]) := by
    unfold grvtShapePosition
    rw [hs, hm]
  refine ⟨_, hout, rfl, ?_, rfl, ?_⟩
  · intro h
    subst h
    simp [dGet, PyVal.dictGet]
  · intro svc env nc hc
    simp [grvtGetPositions, hc, grvtShapePositions, hout]

/-- C10 witness: a position with size 3 and mark price 2 is `long`
with value `str(abs(3 * 2))`. -/
theorem C10_positions_side_value_witness :
    ∃ out, grvtShapePosition (.pobj [("size", .pint 3), ("mark_price", .pint 2)])
        = .ok out ∧
      dGet out "side"
        = some (.pstr (if 0 < (((3 : Int) : ℚ)) then "long" else "short")) ∧
      ((((3 : Int) : ℚ)) = 0 → dGet out "side" = some (.pstr "short")) ∧
      dGet out "value"
        = some (.pstr (PyVal.decStr |(((3 : Int) : ℚ)) * (((2 : Int) : ℚ))|)) ∧
      ∀ (svc : GrvtSvc) (env : List GrvtRes) (nc : Nat),
        callGrvt env 0
          = .ok (.plist [.pobj [("size", .pint 3), ("mark_price", .pint 2)]]) →
        (grvtGetPositions svc env nc).resp = .plist [out] :=
  C10_positions_side_value (.pobj [("size", .pint 3), ("mark_price", .pint 2)])
    (((3 : Int) : ℚ)) (((2 : Int) : ℚ)) rfl rfl
